import Mathlib

/-!
# Renderer start-up and frame recording (`src/vulkan/vulkan.cpp`)

A shallow embedding of the two functions of `vulkan.cpp`:

* `vk.record_command_buffer` : records the drawing commands of one frame;
* `vk.init` : creates the renderer objects in a fixed order.

Both functions only talk to the graphics API and to helpers of sibling files.
The embedding makes this explicit: every call the code makes is appended,
together with what it returned, to a chronological trace, and the answers of
the outside world are read from an environment `Env`.  A C++ exception is an
explicit `Result.raised`; the renderer state written before the `throw` is
kept, as it is behind the `t_ren*` of the source.
-/

namespace vk

/-! ## Library types -/

/-- An API object handle (`VkDevice`, `VkFence`, ...). -/
abbrev Handle := Nat

/-- The status code returned by a checked API call. -/
abbrev VkResult := Int

/-- The success status. -/
def VK_SUCCESS : VkResult := 0

/-- A binary32 value that is a non-negative integer, given by that integer.
Every `float` written by `record_command_buffer` has this form. -/
abbrev float := Nat

/-- Structure type tags used in this file; `VK_STRUCTURE_TYPE_APPLICATION_INFO`
is the zero tag of a value-initialised structure. -/
inductive VkStructureType where
  | VK_STRUCTURE_TYPE_APPLICATION_INFO
  | VK_STRUCTURE_TYPE_FENCE_CREATE_INFO
  | VK_STRUCTURE_TYPE_SEMAPHORE_CREATE_INFO
  | VK_STRUCTURE_TYPE_COMMAND_POOL_CREATE_INFO
  | VK_STRUCTURE_TYPE_COMMAND_BUFFER_ALLOCATE_INFO
  | VK_STRUCTURE_TYPE_COMMAND_BUFFER_BEGIN_INFO
  | VK_STRUCTURE_TYPE_RENDER_PASS_BEGIN_INFO
  deriving DecidableEq, Repr

inductive VkSubpassContents where
  | VK_SUBPASS_CONTENTS_INLINE
  | VK_SUBPASS_CONTENTS_SECONDARY_COMMAND_BUFFERS
  deriving DecidableEq, Repr

inductive VkPipelineBindPoint where
  | VK_PIPELINE_BIND_POINT_GRAPHICS
  | VK_PIPELINE_BIND_POINT_COMPUTE
  deriving DecidableEq, Repr

inductive VkIndexType where
  | VK_INDEX_TYPE_UINT16
  | VK_INDEX_TYPE_UINT32
  deriving DecidableEq, Repr

inductive VkCommandBufferLevel where
  | VK_COMMAND_BUFFER_LEVEL_PRIMARY
  | VK_COMMAND_BUFFER_LEVEL_SECONDARY
  deriving DecidableEq, Repr

export VkStructureType (VK_STRUCTURE_TYPE_APPLICATION_INFO
  VK_STRUCTURE_TYPE_FENCE_CREATE_INFO VK_STRUCTURE_TYPE_SEMAPHORE_CREATE_INFO
  VK_STRUCTURE_TYPE_COMMAND_POOL_CREATE_INFO
  VK_STRUCTURE_TYPE_COMMAND_BUFFER_ALLOCATE_INFO
  VK_STRUCTURE_TYPE_COMMAND_BUFFER_BEGIN_INFO
  VK_STRUCTURE_TYPE_RENDER_PASS_BEGIN_INFO)
export VkSubpassContents (VK_SUBPASS_CONTENTS_INLINE)
export VkPipelineBindPoint (VK_PIPELINE_BIND_POINT_GRAPHICS)
export VkIndexType (VK_INDEX_TYPE_UINT16)
export VkCommandBufferLevel (VK_COMMAND_BUFFER_LEVEL_PRIMARY)

/-- Flag bit of `VkCommandPoolCreateInfo.flags`. -/
def VK_COMMAND_POOL_CREATE_RESET_COMMAND_BUFFER_BIT : Nat := 2

/-- Flag bit of `VkFenceCreateInfo.flags`: the fence is created signaled. -/
def VK_FENCE_CREATE_SIGNALED_BIT : Nat := 1

structure VkExtent2D where
  width : Nat
  height : Nat
  deriving DecidableEq, Repr

structure VkOffset2D where
  x : Int
  y : Int
  deriving DecidableEq, Repr

structure VkRect2D where
  offset : VkOffset2D
  extent : VkExtent2D
  deriving DecidableEq, Repr

structure VkViewport where
  x : float
  y : float
  width : float
  height : float
  minDepth : float
  maxDepth : float
  deriving DecidableEq, Repr

/-- A clear value, used here through its `color.float32` member. -/
structure VkClearValue where
  color : List float
  deriving DecidableEq, Repr

structure VkCommandBufferBeginInfo where
  sType : VkStructureType
  flags : Nat
  deriving DecidableEq, Repr

structure VkRenderPassBeginInfo where
  sType : VkStructureType
  renderPass : Handle
  /-- The element read from the framebuffer array; `none` is a read past its
  end, which C++ leaves undefined. -/
  framebuffer : Option Handle
  renderArea : VkRect2D
  clearValueCount : Nat
  pClearValues : List VkClearValue
  deriving DecidableEq, Repr

structure VkCommandPoolCreateInfo where
  sType : VkStructureType
  flags : Nat
  queueFamilyIndex : Nat
  deriving DecidableEq, Repr

structure VkCommandBufferAllocateInfo where
  sType : VkStructureType
  commandPool : Option Handle
  level : VkCommandBufferLevel
  commandBufferCount : Nat
  deriving DecidableEq, Repr

structure VkSemaphoreCreateInfo where
  sType : VkStructureType
  flags : Nat
  deriving DecidableEq, Repr

structure VkFenceCreateInfo where
  sType : VkStructureType
  flags : Nat
  deriving DecidableEq, Repr

/-! ## Conversion of a `uint32_t` to `float` -/

/-- The direction in which an inexact conversion is rounded.  C++ lets the
implementation pick either neighbour; IEEE 754 hardware uses `nearestEven`
unless the rounding direction was changed. -/
inductive Rounding where
  | nearestEven
  | down
  | up
  deriving DecidableEq, Repr

/-- How many low bits of `n` do not fit the 24-bit significand of a binary32
value; eight halvings take every 32-bit number below `2^24`. -/
def excessBits : Nat → Nat → Nat
  | 0, _ => 0
  | k + 1, n => if n < 2 ^ 24 then 0 else 1 + excessBits k (n / 2)

/-- The value of `static_cast<float>(n)` for a 32-bit unsigned `n`. -/
def u32_to_float (rm : Rounding) (n : Nat) : float :=
  let sh := excessBits 8 n
  let q := n / 2 ^ sh
  let r := n % 2 ^ sh
  if r = 0 then n
  else
    match rm with
    | .down => q * 2 ^ sh
    | .up => (q + 1) * 2 ^ sh
    | .nearestEven =>
      if 2 * r < 2 ^ sh ∨ (2 * r = 2 ^ sh ∧ q % 2 = 0) then q * 2 ^ sh
      else (q + 1) * 2 ^ sh

/-! ## Renderer state -/

/-- The heap arrays of the renderer state that `init` allocates. -/
inductive t_ren_array where
  | command_buffers
  | in_flight_fences
  | image_available_semaphores
  | render_finished_semaphores
  deriving DecidableEq, Repr

/-- The address of one element of such an array (`&ren->in_flight_fences[i]`). -/
structure SlotRef where
  array : t_ren_array
  index : Nat
  deriving DecidableEq, Repr

/-- The fields of `t_ren` that `vulkan.cpp` reads or writes.  A field written
by `init` itself is `none` until it has been written; an array element is
`none` while it is uninitialised heap memory. -/
structure t_ren where
  device : Handle
  physical_device : Handle
  command_pool : Option Handle
  command_buffers : List (Option Handle)
  in_flight_fences : List (Option Handle)
  image_available_semaphores : List (Option Handle)
  render_finished_semaphores : List (Option Handle)
  swap_chain_framebuffers : List Handle
  swap_chain_extent : VkExtent2D
  render_pass : Handle
  graphics_pipeline : Handle
  vertex_buffer : Handle
  index_buffer : Handle
  deriving DecidableEq, Repr

/-- The array stored in a field. -/
def t_ren.array (r : t_ren) : t_ren_array → List (Option Handle)
  | .command_buffers => r.command_buffers
  | .in_flight_fences => r.in_flight_fences
  | .image_available_semaphores => r.image_available_semaphores
  | .render_finished_semaphores => r.render_finished_semaphores

/-- Replace the array stored in a field. -/
def t_ren.setArray (r : t_ren) (a : t_ren_array) (xs : List (Option Handle)) : t_ren :=
  match a with
  | .command_buffers => { r with command_buffers := xs }
  | .in_flight_fences => { r with in_flight_fences := xs }
  | .image_available_semaphores => { r with image_available_semaphores := xs }
  | .render_finished_semaphores => { r with render_finished_semaphores := xs }

/-- Write a handle through an element address.  A write past the end of the
array is dropped. -/
def t_ren.store (r : t_ren) (p : SlotRef) (h : Handle) : t_ren :=
  r.setArray p.array ((r.array p.array).set p.index (some h))

/-- The result of `find_queue_families`, through the member that is read. -/
structure t_queue_family_indices where
  graphics_family : Option Nat
  deriving DecidableEq, Repr

/-- A C++ exception. -/
inductive Exn where
  | runtime_error (what : String)
  | bad_optional_access
  deriving DecidableEq, Repr

/-! ## Calls, trace and environment -/

/-- A call made by `vulkan.cpp`, with its arguments.  `malloc` also names the
field its result is assigned to. -/
inductive Call where
  | vkBeginCommandBuffer (commandBuffer : Handle) (pBeginInfo : VkCommandBufferBeginInfo)
  | vkCmdBeginRenderPass (commandBuffer : Handle) (pRenderPassBegin : VkRenderPassBeginInfo)
      (contents : VkSubpassContents)
  | vkCmdBindPipeline (commandBuffer : Handle) (pipelineBindPoint : VkPipelineBindPoint)
      (pipeline : Handle)
  | vkCmdSetViewport (commandBuffer : Handle) (firstViewport viewportCount : Nat)
      (pViewports : List VkViewport)
  | vkCmdSetScissor (commandBuffer : Handle) (firstScissor scissorCount : Nat)
      (pScissors : List VkRect2D)
  | vkCmdBindVertexBuffers (commandBuffer : Handle) (firstBinding bindingCount : Nat)
      (pBuffers : List Handle) (pOffsets : List Nat)
  | vkCmdBindIndexBuffer (commandBuffer : Handle) (buffer : Handle) (offset : Nat)
      (indexType : VkIndexType)
  | vkCmdDrawIndexed (commandBuffer : Handle) (indexCount instanceCount firstIndex : Nat)
      (vertexOffset : Int) (firstInstance : Nat)
  | vkCmdEndRenderPass (commandBuffer : Handle)
  | vkEndCommandBuffer (commandBuffer : Handle)
  | init_instance (title : String)
  | init_surface
  | init_device
  | init_swap_chain
  | init_image_views
  | init_render_pass
  | init_graphics_pipeline
  | init_framebuffers
  | find_queue_families (device : Handle)
  | vkCreateCommandPool (device : Handle) (pCreateInfo : VkCommandPoolCreateInfo)
  | init_vertex_buffer
  | init_index_buffer
  | malloc (dest : t_ren_array) (size : Nat)
  | vkAllocateCommandBuffers (device : Handle) (pAllocateInfo : VkCommandBufferAllocateInfo)
  | vkCreateSemaphore (device : Handle) (pCreateInfo : VkSemaphoreCreateInfo)
      (pSemaphore : SlotRef)
  | vkCreateFence (device : Handle) (pCreateInfo : VkFenceCreateInfo) (pFence : SlotRef)
  deriving DecidableEq, Repr

/-- What a call gave back. -/
inductive Ret where
  | void
  | status (r : VkResult)
  | threw (e : Exn)
  | pointer
  | families (q : t_queue_family_indices)
  deriving DecidableEq, Repr

/-- One entry of the trace: a call and what it gave back. -/
structure Event where
  call : Call
  ret : Ret
  deriving DecidableEq, Repr

/-- Constants declared outside `vulkan.cpp`, and the rounding direction of the
platform. -/
structure Config where
  MAX_FRAMES_IN_FLIGHT : Nat
  INDICES : List Nat
  rounding : Rounding

/-- A helper of a sibling file: it updates the renderer state and either
returns or throws. -/
abbrev Helper := t_ren → t_ren × Option Exn

/-- The outside world: the status and the handles each API call gives back,
and the helpers defined in the sibling files.  The answer to a call depends on
the call and its arguments; the checked calls of one run of `init` or of
`record_command_buffer` differ pairwise (the creation calls of the loop by
their output element), so every assignment of results to them is the `status`
of some environment. -/
structure Env where
  status : Call → VkResult
  handle : Call → Nat → Handle
  init_instance : String → Helper
  init_surface : Helper
  init_device : Helper
  init_swap_chain : Helper
  init_image_views : Helper
  init_render_pass : Helper
  init_graphics_pipeline : Helper
  init_framebuffers : Helper
  find_queue_families : t_ren → Handle → t_queue_family_indices
  init_vertex_buffer : Helper
  init_index_buffer : Helper

/-- The renderer state behind `ren` and the calls made so far, oldest first. -/
structure World where
  ren : t_ren
  trace : List Event
  deriving DecidableEq, Repr

/-- How a function ended. -/
inductive Result (α : Type) where
  | ok (a : α)
  | raised (e : Exn)
  deriving DecidableEq, Repr

/-- A computation that may call out, update the renderer state and throw. -/
def Exec (α : Type) : Type := World → Result α × World

/-- Return a value. -/
def Exec.pure {α : Type} (a : α) : Exec α := fun w => (.ok a, w)

/-- Sequence two computations; an exception skips the second. -/
def Exec.bind {α β : Type} (x : Exec α) (f : α → Exec β) : Exec β := fun w =>
  match x w with
  | (.ok a, w1) => f a w1
  | (.raised e, w1) => (.raised e, w1)

instance : Monad Exec where
  pure := Exec.pure
  bind := Exec.bind

/-- The statement `throw e`. -/
def raise {α : Type} (e : Exn) : Exec α := fun w => (.raised e, w)

/-- Read the renderer state. -/
def getRen : Exec t_ren
  | ⟨ren, trace⟩ => (.ok ren, ⟨ren, trace⟩)

/-- Update the renderer state. -/
def modifyRen (f : t_ren → t_ren) : Exec Unit
  | ⟨ren, trace⟩ => (.ok (), ⟨f ren, trace⟩)

/-- Append an entry to the trace. -/
def emit (c : Call) (r : Ret) : Exec Unit
  | ⟨ren, trace⟩ => (.ok (), ⟨ren, trace ++ [⟨c, r⟩]⟩)

/-- An API call that returns a status. -/
def checked (env : Env) (c : Call) : Exec VkResult := do
  emit c (.status (env.status c))
  return env.status c

/-- A `vkCmd*` call: it returns nothing. -/
def cmd (c : Call) : Exec Unit := emit c .void

/-- A call of a helper of a sibling file. -/
def helper (c : Call) (f : Helper) : Exec Unit := do
  let r ← getRen
  match f r with
  | (r1, none) =>
    modifyRen (fun _ => r1)
    emit c .void
  | (r1, some e) =>
    modifyRen (fun _ => r1)
    emit c (.threw e)
    raise e

/-- The size of a handle (`sizeof(VkCommandBuffer)`, `sizeof(VkFence)`,
`sizeof(VkSemaphore)`), in bytes. -/
def sizeof_handle : Nat := 8

/-- A call of `malloc(size)` for an array of handles, stored to a field of the
renderer state.  The block has room for `size / sizeof_handle` handles, none
of them initialised; allocation failure is not modelled. -/
def malloc (dest : t_ren_array) (size : Nat) : Exec Unit := do
  emit (.malloc dest size) .pointer
  modifyRen (fun r => r.setArray dest (List.replicate (size / sizeof_handle) none))

/-- The element address `opt.value()` of a `std::optional`: it throws
`std::bad_optional_access` when the optional is empty. -/
def value {α : Type} : Option α → Exec α
  | some a => pure a
  | none => raise .bad_optional_access

/-- The operator `||` on two conditions that make calls: the right operand is
evaluated only when the left one is false. -/
def Exec.or (x y : Exec Bool) : Exec Bool := do
  if (← x) then return true else y

/-- The comparison `call != VK_SUCCESS`. -/
def failed (x : Exec VkResult) : Exec Bool := do
  return decide ((← x) ≠ VK_SUCCESS)

/-- Write `count` handles to the start of an array; a write past its end is
dropped. -/
def fill (f : Nat → Handle) : Nat → List (Option Handle) → List (Option Handle)
  | 0, xs => xs
  | k + 1, xs => (fill f k xs).set k (some (f k))

/-! ## The API calls

Each call is logged with the status the environment gives it.  A creating call
that succeeds writes the new handle through its output pointer; one that fails
writes nothing. -/

def vkBeginCommandBuffer (env : Env) (commandBuffer : Handle)
    (pBeginInfo : VkCommandBufferBeginInfo) : Exec VkResult :=
  checked env (.vkBeginCommandBuffer commandBuffer pBeginInfo)

def vkEndCommandBuffer (env : Env) (commandBuffer : Handle) : Exec VkResult :=
  checked env (.vkEndCommandBuffer commandBuffer)

def vkCmdBeginRenderPass (commandBuffer : Handle) (pRenderPassBegin : VkRenderPassBeginInfo)
    (contents : VkSubpassContents) : Exec Unit :=
  cmd (.vkCmdBeginRenderPass commandBuffer pRenderPassBegin contents)

def vkCmdBindPipeline (commandBuffer : Handle) (pipelineBindPoint : VkPipelineBindPoint)
    (pipeline : Handle) : Exec Unit :=
  cmd (.vkCmdBindPipeline commandBuffer pipelineBindPoint pipeline)

def vkCmdSetViewport (commandBuffer : Handle) (firstViewport viewportCount : Nat)
    (pViewports : List VkViewport) : Exec Unit :=
  cmd (.vkCmdSetViewport commandBuffer firstViewport viewportCount pViewports)

def vkCmdSetScissor (commandBuffer : Handle) (firstScissor scissorCount : Nat)
    (pScissors : List VkRect2D) : Exec Unit :=
  cmd (.vkCmdSetScissor commandBuffer firstScissor scissorCount pScissors)

def vkCmdBindVertexBuffers (commandBuffer : Handle) (firstBinding bindingCount : Nat)
    (pBuffers : List Handle) (pOffsets : List Nat) : Exec Unit :=
  cmd (.vkCmdBindVertexBuffers commandBuffer firstBinding bindingCount pBuffers pOffsets)

def vkCmdBindIndexBuffer (commandBuffer : Handle) (buffer : Handle) (offset : Nat)
    (indexType : VkIndexType) : Exec Unit :=
  cmd (.vkCmdBindIndexBuffer commandBuffer buffer offset indexType)

def vkCmdDrawIndexed (commandBuffer : Handle) (indexCount instanceCount firstIndex : Nat)
    (vertexOffset : Int) (firstInstance : Nat) : Exec Unit :=
  cmd (.vkCmdDrawIndexed commandBuffer indexCount instanceCount firstIndex vertexOffset
    firstInstance)

def vkCmdEndRenderPass (commandBuffer : Handle) : Exec Unit :=
  cmd (.vkCmdEndRenderPass commandBuffer)

/-- The output pointer is `&ren->command_pool`. -/
def vkCreateCommandPool (env : Env) (device : Handle)
    (pCreateInfo : VkCommandPoolCreateInfo) : Exec VkResult := do
  let c := Call.vkCreateCommandPool device pCreateInfo
  let r ← checked env c
  if r = VK_SUCCESS then
    modifyRen (fun ren => { ren with command_pool := some (env.handle c 0) })
  return r

/-- The output pointer is `ren->command_buffers`. -/
def vkAllocateCommandBuffers (env : Env) (device : Handle)
    (pAllocateInfo : VkCommandBufferAllocateInfo) : Exec VkResult := do
  let c := Call.vkAllocateCommandBuffers device pAllocateInfo
  let r ← checked env c
  if r = VK_SUCCESS then
    modifyRen (fun ren =>
      { ren with
        command_buffers :=
          fill (env.handle c) pAllocateInfo.commandBufferCount ren.command_buffers })
  return r

def vkCreateSemaphore (env : Env) (device : Handle) (pCreateInfo : VkSemaphoreCreateInfo)
    (pSemaphore : SlotRef) : Exec VkResult := do
  let c := Call.vkCreateSemaphore device pCreateInfo pSemaphore
  let r ← checked env c
  if r = VK_SUCCESS then
    modifyRen (fun ren => ren.store pSemaphore (env.handle c 0))
  return r

def vkCreateFence (env : Env) (device : Handle) (pCreateInfo : VkFenceCreateInfo)
    (pFence : SlotRef) : Exec VkResult := do
  let c := Call.vkCreateFence device pCreateInfo pFence
  let r ← checked env c
  if r = VK_SUCCESS then
    modifyRen (fun ren => ren.store pFence (env.handle c 0))
  return r

/-- The call `find_queue_families(ren, device)`. -/
def find_queue_families (env : Env) (device : Handle) : Exec t_queue_family_indices := do
  let ren ← getRen
  let q := env.find_queue_families ren device
  emit (.find_queue_families device) (.families q)
  return q

/-! ## `record_command_buffer` -/

/-- Embedding of `record_command_buffer(ren, command_buffer, image_idx)`. -/
def record_command_buffer (cfg : Config) (env : Env) (command_buffer : Handle)
    (image_idx : Nat) : Exec Unit := do
  let ren ← getRen
  let begin_info : VkCommandBufferBeginInfo :=
    { sType := VK_STRUCTURE_TYPE_COMMAND_BUFFER_BEGIN_INFO, flags := 0 }
  if (← vkBeginCommandBuffer env command_buffer begin_info) ≠ VK_SUCCESS then
    raise (.runtime_error "Failed to begin recording command buffer!")
  let clear_color : VkClearValue := { color := [0, 0, 0, 1] }
  let render_pass_info : VkRenderPassBeginInfo :=
    { sType := VK_STRUCTURE_TYPE_RENDER_PASS_BEGIN_INFO
      renderPass := ren.render_pass
      framebuffer := ren.swap_chain_framebuffers[image_idx]?
      renderArea := { offset := { x := 0, y := 0 }, extent := ren.swap_chain_extent }
      clearValueCount := 1
      pClearValues := [clear_color] }
  vkCmdBeginRenderPass command_buffer render_pass_info VK_SUBPASS_CONTENTS_INLINE
  vkCmdBindPipeline command_buffer VK_PIPELINE_BIND_POINT_GRAPHICS ren.graphics_pipeline
  let viewport : VkViewport :=
    { x := 0
      y := 0
      width := u32_to_float cfg.rounding ren.swap_chain_extent.width
      height := u32_to_float cfg.rounding ren.swap_chain_extent.height
      minDepth := 0
      maxDepth := 1 }
  vkCmdSetViewport command_buffer 0 1 [viewport]
  let scissor : VkRect2D := { offset := { x := 0, y := 0 }, extent := ren.swap_chain_extent }
  vkCmdSetScissor command_buffer 0 1 [scissor]
  let vertex_buffers : List Handle := [ren.vertex_buffer]
  let offsets : List Nat := [0]
  vkCmdBindVertexBuffers command_buffer 0 1 vertex_buffers offsets
  vkCmdBindIndexBuffer command_buffer ren.index_buffer 0 VK_INDEX_TYPE_UINT16
  vkCmdDrawIndexed command_buffer (cfg.INDICES.length % 2 ^ 32) 1 0 0 0
  vkCmdEndRenderPass command_buffer
  if (← vkEndCommandBuffer env command_buffer) ≠ VK_SUCCESS then
    raise (.runtime_error "Failed to record command buffer!")

/-! ## `init` -/

/-- The loop `for (size_t i = ...; i < MAX_FRAMES_IN_FLIGHT; i++)` of `init`,
with `n` rounds left to run from index `i`. -/
def init_loop (env : Env) (semaphore_info : VkSemaphoreCreateInfo)
    (fence_info : VkFenceCreateInfo) : Nat → Nat → Exec Unit
  | 0, _ => pure ()
  | n + 1, i => do
    let ren ← getRen
    if (← Exec.or
          (Exec.or
            (failed (vkCreateSemaphore env ren.device semaphore_info
              ⟨.image_available_semaphores, i⟩))
            (failed (vkCreateSemaphore env ren.device semaphore_info
              ⟨.render_finished_semaphores, i⟩)))
          (failed (vkCreateFence env ren.device fence_info ⟨.in_flight_fences, i⟩))) then
      raise (.runtime_error "Failed to create synchronization objects for a frame!")
    init_loop env semaphore_info fence_info n (i + 1)

/-- Embedding of `init(ren, title)`. -/
def init (cfg : Config) (env : Env) (title : String) : Exec Unit := do
  helper (.init_instance title) (env.init_instance title)
  helper .init_surface env.init_surface
  helper .init_device env.init_device
  helper .init_swap_chain env.init_swap_chain
  helper .init_image_views env.init_image_views
  helper .init_render_pass env.init_render_pass
  helper .init_graphics_pipeline env.init_graphics_pipeline
  helper .init_framebuffers env.init_framebuffers
  let queue_family_indices ← find_queue_families env (← getRen).physical_device
  let pool_info : VkCommandPoolCreateInfo :=
    { sType := VK_STRUCTURE_TYPE_COMMAND_POOL_CREATE_INFO
      flags := VK_COMMAND_POOL_CREATE_RESET_COMMAND_BUFFER_BIT
      queueFamilyIndex := ← value queue_family_indices.graphics_family }
  if (← vkCreateCommandPool env (← getRen).device pool_info) ≠ VK_SUCCESS then
    raise (.runtime_error "Failed to create command pool!")
  helper .init_vertex_buffer env.init_vertex_buffer
  helper .init_index_buffer env.init_index_buffer
  let alloc_info : VkCommandBufferAllocateInfo :=
    { sType := VK_STRUCTURE_TYPE_COMMAND_BUFFER_ALLOCATE_INFO
      commandPool := (← getRen).command_pool
      level := VK_COMMAND_BUFFER_LEVEL_PRIMARY
      commandBufferCount := cfg.MAX_FRAMES_IN_FLIGHT % 2 ^ 32 }
  let size := cfg.MAX_FRAMES_IN_FLIGHT * sizeof_handle % 2 ^ 64
  malloc .command_buffers size
  if (← vkAllocateCommandBuffers env (← getRen).device alloc_info) ≠ VK_SUCCESS then
    raise (.runtime_error "Failed to create command buffers!")
  let semaphore_info : VkSemaphoreCreateInfo :=
    { sType := VK_STRUCTURE_TYPE_SEMAPHORE_CREATE_INFO, flags := 0 }
  let fence_info : VkFenceCreateInfo :=
    { sType := VK_STRUCTURE_TYPE_FENCE_CREATE_INFO, flags := VK_FENCE_CREATE_SIGNALED_BIT }
  let fences_size := sizeof_handle * cfg.MAX_FRAMES_IN_FLIGHT % 2 ^ 64
  let semaphores_size := sizeof_handle * cfg.MAX_FRAMES_IN_FLIGHT % 2 ^ 64
  malloc .in_flight_fences fences_size
  malloc .image_available_semaphores semaphores_size
  malloc .render_finished_semaphores semaphores_size
  init_loop env semaphore_info fence_info cfg.MAX_FRAMES_IN_FLIGHT 0

/-! ## Reading the trace -/

/-- The entries a computation appends to the trace when it is run from `w`. -/
def appended {α : Type} (x : Exec α) (w : World) : List Event :=
  (x w).2.trace.drop w.trace.length

/-- The kinds of command that can be recorded into a command buffer. -/
inductive CommandKind where
  | beginRenderPass
  | bindPipeline
  | setViewport
  | setScissor
  | bindVertexBuffers
  | bindIndexBuffer
  | drawIndexed
  | endRenderPass
  deriving DecidableEq, Repr

/-- The command buffer and the kind of a `vkCmd*` call; `none` for any other
call. -/
def Call.command? : Call → Option (Handle × CommandKind)
  | .vkCmdBeginRenderPass cb _ _ => some (cb, .beginRenderPass)
  | .vkCmdBindPipeline cb _ _ => some (cb, .bindPipeline)
  | .vkCmdSetViewport cb _ _ _ => some (cb, .setViewport)
  | .vkCmdSetScissor cb _ _ _ => some (cb, .setScissor)
  | .vkCmdBindVertexBuffers cb _ _ _ _ => some (cb, .bindVertexBuffers)
  | .vkCmdBindIndexBuffer cb _ _ _ => some (cb, .bindIndexBuffer)
  | .vkCmdDrawIndexed cb _ _ _ _ _ => some (cb, .drawIndexed)
  | .vkCmdEndRenderPass cb => some (cb, .endRenderPass)
  | _ => none

/-- The commands recorded by a stretch of the trace, oldest first. -/
def commands (t : List Event) : List (Handle × CommandKind) :=
  t.filterMap (fun ev => ev.call.command?)

/-- The viewports set by a stretch of the trace. -/
def viewports (t : List Event) : List VkViewport :=
  t.flatMap (fun ev => match ev.call with
    | .vkCmdSetViewport _ _ _ vs => vs
    | _ => [])

/-- The scissor rectangles set by a stretch of the trace. -/
def scissors (t : List Event) : List VkRect2D :=
  t.flatMap (fun ev => match ev.call with
    | .vkCmdSetScissor _ _ _ ss => ss
    | _ => [])

/-- The render areas of the render passes begun in a stretch of the trace. -/
def renderAreas (t : List Event) : List VkRect2D :=
  t.filterMap (fun ev => match ev.call with
    | .vkCmdBeginRenderPass _ info _ => some info.renderArea
    | _ => none)

/-- The call `vkBeginCommandBuffer` made by the recorder. -/
def beginCall (cb : Handle) : Call :=
  .vkBeginCommandBuffer cb { sType := VK_STRUCTURE_TYPE_COMMAND_BUFFER_BEGIN_INFO, flags := 0 }

/-- The eight commands of one frame, as the recorder issues them. -/
def frameCommands (cfg : Config) (ren : t_ren) (cb : Handle) (idx : Nat) : List Call :=
  [ .vkCmdBeginRenderPass cb
      { sType := VK_STRUCTURE_TYPE_RENDER_PASS_BEGIN_INFO
        renderPass := ren.render_pass
        framebuffer := ren.swap_chain_framebuffers[idx]?
        renderArea := { offset := { x := 0, y := 0 }, extent := ren.swap_chain_extent }
        clearValueCount := 1
        pClearValues := [{ color := [0, 0, 0, 1] }] }
      VK_SUBPASS_CONTENTS_INLINE,
    .vkCmdBindPipeline cb VK_PIPELINE_BIND_POINT_GRAPHICS ren.graphics_pipeline,
    .vkCmdSetViewport cb 0 1
      [{ x := 0, y := 0
         width := u32_to_float cfg.rounding ren.swap_chain_extent.width
         height := u32_to_float cfg.rounding ren.swap_chain_extent.height
         minDepth := 0, maxDepth := 1 }],
    .vkCmdSetScissor cb 0 1 [{ offset := { x := 0, y := 0 }, extent := ren.swap_chain_extent }],
    .vkCmdBindVertexBuffers cb 0 1 [ren.vertex_buffer] [0],
    .vkCmdBindIndexBuffer cb ren.index_buffer 0 VK_INDEX_TYPE_UINT16,
    .vkCmdDrawIndexed cb (cfg.INDICES.length % 2 ^ 32) 1 0 0 0,
    .vkCmdEndRenderPass cb ]

/-- An environment in which every call succeeds and no helper touches the
renderer state. -/
def envOk : Env where
  status := fun _ => VK_SUCCESS
  handle := fun _ k => 100 + k
  init_instance := fun _ r => (r, none)
  init_surface := fun r => (r, none)
  init_device := fun r => (r, none)
  init_swap_chain := fun r => (r, none)
  init_image_views := fun r => (r, none)
  init_render_pass := fun r => (r, none)
  init_graphics_pipeline := fun r => (r, none)
  init_framebuffers := fun r => (r, none)
  find_queue_families := fun _ _ => ⟨some 0⟩
  init_vertex_buffer := fun r => (r, none)
  init_index_buffer := fun r => (r, none)

/-- A renderer state with two framebuffers and an 800 x 600 swap chain. -/
def renSmall : t_ren :=
  { device := 1, physical_device := 2, command_pool := none, command_buffers := []
    in_flight_fences := [], image_available_semaphores := []
    render_finished_semaphores := [], swap_chain_framebuffers := [10, 11]
    swap_chain_extent := { width := 800, height := 600 }
    render_pass := 3, graphics_pipeline := 4, vertex_buffer := 5, index_buffer := 6 }

/-- The same state with a swap chain `2^24 + 1` wide. -/
def renWide : t_ren :=
  { renSmall with swap_chain_extent := { width := 16777217, height := 600 } }

/-- Two frames in flight and the six indices of a quad. -/
def cfgQuad : Config :=
  { MAX_FRAMES_IN_FLIGHT := 2, INDICES := [0, 1, 2, 2, 3, 0], rounding := .nearestEven }

/-! ## Reading a run of `init` -/

/-- The structure `semaphore_info` of `init`. -/
def semaphore_info : VkSemaphoreCreateInfo :=
  { sType := VK_STRUCTURE_TYPE_SEMAPHORE_CREATE_INFO, flags := 0 }

/-- The structure `fence_info` of `init`. -/
def fence_info : VkFenceCreateInfo :=
  { sType := VK_STRUCTURE_TYPE_FENCE_CREATE_INFO, flags := VK_FENCE_CREATE_SIGNALED_BIT }

/-- The creation calls of the loop of `init`, numbered in the order of the
source: call `3 * k` creates the image-available semaphore of frame `k`, call
`3 * k + 1` its render-finished semaphore and call `3 * k + 2` its fence. -/
def syncCall (dev : Handle) (si : VkSemaphoreCreateInfo) (fi : VkFenceCreateInfo)
    (p : Nat) : Call :=
  if p % 3 = 0 then .vkCreateSemaphore dev si ⟨.image_available_semaphores, p / 3⟩
  else if p % 3 = 1 then .vkCreateSemaphore dev si ⟨.render_finished_semaphores, p / 3⟩
  else .vkCreateFence dev fi ⟨.in_flight_fences, p / 3⟩

/-- The array element that creation call `p` writes. -/
def syncSlot (p : Nat) : SlotRef :=
  if p % 3 = 0 then ⟨.image_available_semaphores, p / 3⟩
  else if p % 3 = 1 then ⟨.render_finished_semaphores, p / 3⟩
  else ⟨.in_flight_fences, p / 3⟩

/-- The number of the creation call that writes element `k` of an array. -/
def syncPos : t_ren_array → Nat → Option Nat
  | .image_available_semaphores, k => some (3 * k)
  | .render_finished_semaphores, k => some (3 * k + 1)
  | .in_flight_fences, k => some (3 * k + 2)
  | .command_buffers, _ => none

/-- The trace entries of a list of checked calls. -/
def logged (env : Env) (cs : List Call) : List Event :=
  cs.map (fun c => ⟨c, .status (env.status c)⟩)

/-- The renderer state after the creation calls numbered `ps` have succeeded. -/
def storeAll (env : Env) (dev : Handle) (si : VkSemaphoreCreateInfo) (fi : VkFenceCreateInfo)
    (ps : List Nat) (ren : t_ren) : t_ren :=
  ps.foldl (fun r p => r.store (syncSlot p) (env.handle (syncCall dev si fi p) 0)) ren

/-- The exception of the loop of `init`. -/
def syncError : Exn :=
  .runtime_error "Failed to create synchronization objects for a frame!"

/-- Whether a call came back without an error: a status is the success status,
a helper returned instead of throwing, the queue-family lookup found a graphics
family. -/
def Event.succeeded (ev : Event) : Bool :=
  match ev.ret with
  | .void => true
  | .pointer => true
  | .status r => decide (r = VK_SUCCESS)
  | .threw _ => false
  | .families q => q.graphics_family.isSome

/-- The message with which `init` raises when a checked API call fails. -/
def Call.failureMessage? : Call → Option String
  | .vkCreateCommandPool _ _ => some "Failed to create command pool!"
  | .vkAllocateCommandBuffers _ _ => some "Failed to create command buffers!"
  | .vkCreateSemaphore _ _ _ => some "Failed to create synchronization objects for a frame!"
  | .vkCreateFence _ _ _ => some "Failed to create synchronization objects for a frame!"
  | _ => none

/-- The exception `e` is the one that the call `last` leads to: a helper threw
it; or the lookup found no graphics family and `value()` threw; or a checked
API call returned a status other than success and `init` threw the
`runtime_error` with the message of that call. -/
def raisedBy (e : Exn) (last : Event) : Prop :=
  match last.ret with
  | .threw e1 => e = e1
  | .families q => q.graphics_family = none ∧ e = .bad_optional_access
  | .status r =>
    r ≠ VK_SUCCESS ∧ ∃ msg, last.call.failureMessage? = some msg ∧ e = .runtime_error msg
  | _ => False

/-- Whether a call creates a semaphore or a fence. -/
def Call.isSyncCreate : Call → Bool
  | .vkCreateSemaphore _ _ _ => true
  | .vkCreateFence _ _ _ => true
  | _ => false

/-- The steps of the start-up, in the order of the source. -/
inductive Step where
  | createInstance
  | createSurface
  | createDevice
  | createSwapChain
  | createImageViews
  | createRenderPass
  | createGraphicsPipeline
  | createFramebuffers
  | createCommandPool
  | createVertexBuffer
  | createIndexBuffer
  | createCommandBuffers
  | createSyncPrimitives
  deriving DecidableEq, Repr

/-- The thirteen steps in order. -/
def allSteps : List Step :=
  [.createInstance, .createSurface, .createDevice, .createSwapChain, .createImageViews,
   .createRenderPass, .createGraphicsPipeline, .createFramebuffers, .createCommandPool,
   .createVertexBuffer, .createIndexBuffer, .createCommandBuffers, .createSyncPrimitives]

/-- The arguments of the calls of a start-up that are read from the renderer
state or come from the caller. -/
structure StepArgs where
  title : String
  physical_device : Handle
  pool_device : Handle
  queueFamilyIndex : Nat
  command_pool : Option Handle
  buffers_device : Handle
  sync_device : Handle

/-- The calls that make up each step of the start-up, in the order in which a
complete run makes them.  The first eight steps and the two buffer steps are
one helper call each; the command pool is the queue-family lookup and
`vkCreateCommandPool`; the command buffers are an allocation of the array and
`vkAllocateCommandBuffers`; the synchronization primitives are the allocation
of the three arrays and then, frame by frame, the creation of the
image-available semaphore, the render-finished semaphore and the fence. -/
def stepCalls (cfg : Config) (a : StepArgs) : Step → List Call
  | .createInstance => [.init_instance a.title]
  | .createSurface => [.init_surface]
  | .createDevice => [.init_device]
  | .createSwapChain => [.init_swap_chain]
  | .createImageViews => [.init_image_views]
  | .createRenderPass => [.init_render_pass]
  | .createGraphicsPipeline => [.init_graphics_pipeline]
  | .createFramebuffers => [.init_framebuffers]
  | .createCommandPool =>
    [ .find_queue_families a.physical_device,
      .vkCreateCommandPool a.pool_device
        { sType := VK_STRUCTURE_TYPE_COMMAND_POOL_CREATE_INFO
          flags := VK_COMMAND_POOL_CREATE_RESET_COMMAND_BUFFER_BIT
          queueFamilyIndex := a.queueFamilyIndex } ]
  | .createVertexBuffer => [.init_vertex_buffer]
  | .createIndexBuffer => [.init_index_buffer]
  | .createCommandBuffers =>
    [ .malloc .command_buffers (cfg.MAX_FRAMES_IN_FLIGHT * sizeof_handle % 2 ^ 64),
      .vkAllocateCommandBuffers a.buffers_device
        { sType := VK_STRUCTURE_TYPE_COMMAND_BUFFER_ALLOCATE_INFO
          commandPool := a.command_pool
          level := VK_COMMAND_BUFFER_LEVEL_PRIMARY
          commandBufferCount := cfg.MAX_FRAMES_IN_FLIGHT % 2 ^ 32 } ]
  | .createSyncPrimitives =>
    [ .malloc .in_flight_fences (sizeof_handle * cfg.MAX_FRAMES_IN_FLIGHT % 2 ^ 64),
      .malloc .image_available_semaphores (sizeof_handle * cfg.MAX_FRAMES_IN_FLIGHT % 2 ^ 64),
      .malloc .render_finished_semaphores
        (sizeof_handle * cfg.MAX_FRAMES_IN_FLIGHT % 2 ^ 64) ] ++
      (List.range (3 * cfg.MAX_FRAMES_IN_FLIGHT)).map
        (syncCall a.sync_device semaphore_info fence_info)

/-- The calls of a complete start-up: those of the thirteen steps, one step
after the other. -/
def startupCalls (cfg : Config) (a : StepArgs) : List Call :=
  allSteps.flatMap (stepCalls cfg a)

/-- The calls of a complete start-up that come before the loop. -/
def setupCalls (cfg : Config) (a : StepArgs) : List Call :=
  [ .init_instance a.title, .init_surface, .init_device, .init_swap_chain,
    .init_image_views, .init_render_pass, .init_graphics_pipeline, .init_framebuffers,
    .find_queue_families a.physical_device,
    .vkCreateCommandPool a.pool_device
      { sType := VK_STRUCTURE_TYPE_COMMAND_POOL_CREATE_INFO
        flags := VK_COMMAND_POOL_CREATE_RESET_COMMAND_BUFFER_BIT
        queueFamilyIndex := a.queueFamilyIndex },
    .init_vertex_buffer, .init_index_buffer,
    .malloc .command_buffers (cfg.MAX_FRAMES_IN_FLIGHT * sizeof_handle % 2 ^ 64),
    .vkAllocateCommandBuffers a.buffers_device
      { sType := VK_STRUCTURE_TYPE_COMMAND_BUFFER_ALLOCATE_INFO
        commandPool := a.command_pool
        level := VK_COMMAND_BUFFER_LEVEL_PRIMARY
        commandBufferCount := cfg.MAX_FRAMES_IN_FLIGHT % 2 ^ 32 },
    .malloc .in_flight_fences (sizeof_handle * cfg.MAX_FRAMES_IN_FLIGHT % 2 ^ 64),
    .malloc .image_available_semaphores (sizeof_handle * cfg.MAX_FRAMES_IN_FLIGHT % 2 ^ 64),
    .malloc .render_finished_semaphores
      (sizeof_handle * cfg.MAX_FRAMES_IN_FLIGHT % 2 ^ 64) ]

/-- The statements of `init` before its loop. -/
def init_setup (cfg : Config) (env : Env) (title : String) : Exec Unit := do
  helper (.init_instance title) (env.init_instance title)
  helper .init_surface env.init_surface
  helper .init_device env.init_device
  helper .init_swap_chain env.init_swap_chain
  helper .init_image_views env.init_image_views
  helper .init_render_pass env.init_render_pass
  helper .init_graphics_pipeline env.init_graphics_pipeline
  helper .init_framebuffers env.init_framebuffers
  let queue_family_indices ← find_queue_families env (← getRen).physical_device
  let pool_info : VkCommandPoolCreateInfo :=
    { sType := VK_STRUCTURE_TYPE_COMMAND_POOL_CREATE_INFO
      flags := VK_COMMAND_POOL_CREATE_RESET_COMMAND_BUFFER_BIT
      queueFamilyIndex := ← value queue_family_indices.graphics_family }
  if (← vkCreateCommandPool env (← getRen).device pool_info) ≠ VK_SUCCESS then
    raise (.runtime_error "Failed to create command pool!")
  helper .init_vertex_buffer env.init_vertex_buffer
  helper .init_index_buffer env.init_index_buffer
  let alloc_info : VkCommandBufferAllocateInfo :=
    { sType := VK_STRUCTURE_TYPE_COMMAND_BUFFER_ALLOCATE_INFO
      commandPool := (← getRen).command_pool
      level := VK_COMMAND_BUFFER_LEVEL_PRIMARY
      commandBufferCount := cfg.MAX_FRAMES_IN_FLIGHT % 2 ^ 32 }
  let size := cfg.MAX_FRAMES_IN_FLIGHT * sizeof_handle % 2 ^ 64
  malloc .command_buffers size
  if (← vkAllocateCommandBuffers env (← getRen).device alloc_info) ≠ VK_SUCCESS then
    raise (.runtime_error "Failed to create command buffers!")
  let fences_size := sizeof_handle * cfg.MAX_FRAMES_IN_FLIGHT % 2 ^ 64
  let semaphores_size := sizeof_handle * cfg.MAX_FRAMES_IN_FLIGHT % 2 ^ 64
  malloc .in_flight_fences fences_size
  malloc .image_available_semaphores semaphores_size
  malloc .render_finished_semaphores semaphores_size

/-- The state of the four arrays when the loop of `init` is entered: the three
synchronization arrays have `MAX_FRAMES_IN_FLIGHT` uninitialised elements, and
the command-buffer array has that many elements, each holding a handle given
by one successful call of `vkAllocateCommandBuffers` in the trace `t`; the
command pool holds the handle given by a successful `vkCreateCommandPool` in
`t`, unless one of the two buffer helpers, which run after it, changed that
field. -/
def initArrays (cfg : Config) (env : Env) (t : List Event) (r : t_ren) : Prop :=
  r.in_flight_fences = List.replicate cfg.MAX_FRAMES_IN_FLIGHT none ∧
  r.image_available_semaphores = List.replicate cfg.MAX_FRAMES_IN_FLIGHT none ∧
  r.render_finished_semaphores = List.replicate cfg.MAX_FRAMES_IN_FLIGHT none ∧
  r.command_buffers.length = cfg.MAX_FRAMES_IN_FLIGHT ∧
  (∃ dev info, info.commandBufferCount = cfg.MAX_FRAMES_IN_FLIGHT ∧
    (⟨.vkAllocateCommandBuffers dev info, .status VK_SUCCESS⟩ : Event) ∈ t ∧
    ∀ k, k < cfg.MAX_FRAMES_IN_FLIGHT →
      r.command_buffers[k]? = some (some (env.handle (.vkAllocateCommandBuffers dev info) k))) ∧
  (∃ rp dev info, (⟨.vkCreateCommandPool dev info, .status VK_SUCCESS⟩ : Event) ∈ t ∧
    rp.command_pool = some (env.handle (.vkCreateCommandPool dev info) 0) ∧
    r.command_pool = (env.init_index_buffer (env.init_vertex_buffer rp).1).1.command_pool)

/-- Every field that `init` itself is responsible for holds an object: the
command pool, and each of the `MAX_FRAMES_IN_FLIGHT` elements of the
command-buffer array, the fence array and the two semaphore arrays. -/
def populated (cfg : Config) (r : t_ren) : Prop :=
  r.command_pool.isSome = true ∧
  ∀ a : t_ren_array, (r.array a).length = cfg.MAX_FRAMES_IN_FLIGHT ∧
    ∀ k, k < cfg.MAX_FRAMES_IN_FLIGHT → ∃ h, (r.array a)[k]? = some (some h)

/-- An environment in which the queue-family lookup finds no graphics family
and everything else succeeds. -/
def envNoGraphics : Env :=
  { envOk with find_queue_families := fun _ _ => ⟨none⟩ }

/-- An environment in which the creation of the render-finished semaphore of
frame 1 fails and everything else succeeds. -/
def envSyncFail : Env :=
  { envOk with
    status := fun c =>
      match c with
      | .vkCreateSemaphore _ _ ⟨.render_finished_semaphores, 1⟩ => -1
      | _ => VK_SUCCESS }

/-- An environment in which `vkBeginCommandBuffer` fails and everything else
succeeds. -/
def envBeginFail : Env :=
  { envOk with
    status := fun c =>
      match c with
      | .vkBeginCommandBuffer _ _ => -1
      | _ => VK_SUCCESS }

/-- An environment in which the two buffer helpers store a buffer and
everything succeeds. -/
def envBuffers : Env :=
  { envOk with
    init_vertex_buffer := fun
      | ⟨dev, pd, pool, cbs, fences, ias, rfs, fbs, extent, pass, pipeline, _, ib⟩ =>
        (⟨dev, pd, pool, cbs, fences, ias, rfs, fbs, extent, pass, pipeline, 50, ib⟩, none)
    init_index_buffer := fun
      | ⟨dev, pd, pool, cbs, fences, ias, rfs, fbs, extent, pass, pipeline, vb, _⟩ =>
        (⟨dev, pd, pool, cbs, fences, ias, rfs, fbs, extent, pass, pipeline, vb, 60⟩, none) }

/-! ## Running a computation -/

theorem bind_apply {α β : Type} (x : Exec α) (f : α → Exec β) (w : World) :
    (x >>= f) w = match x w with
      | (.ok a, w1) => f a w1
      | (.raised e, w1) => (.raised e, w1) := rfl

theorem pure_apply {α : Type} (a : α) (w : World) : (pure a : Exec α) w = (.ok a, w) := rfl

/-! ## The recorder in closed form -/

/-- The recorder, computed: it stops after a failing begin, and otherwise
issues the eight commands of the frame and ends the buffer. -/
theorem record_command_buffer_eq (cfg : Config) (env : Env) (cb idx : Nat) (ren : t_ren)
    (tr : List Event) :
    record_command_buffer cfg env cb idx ⟨ren, tr⟩ =
      if env.status (beginCall cb) ≠ VK_SUCCESS then
        (.raised (.runtime_error "Failed to begin recording command buffer!"),
          ⟨ren, tr ++ [⟨beginCall cb, .status (env.status (beginCall cb))⟩]⟩)
      else
        (if env.status (.vkEndCommandBuffer cb) ≠ VK_SUCCESS then
            .raised (.runtime_error "Failed to record command buffer!")
          else .ok (),
          ⟨ren, tr ++ (⟨beginCall cb, .status (env.status (beginCall cb))⟩ ::
            (frameCommands cfg ren cb idx).map (fun c => ⟨c, .void⟩) ++
            [⟨.vkEndCommandBuffer cb, .status (env.status (.vkEndCommandBuffer cb))⟩])⟩) := by
  by_cases hb : env.status (beginCall cb) = VK_SUCCESS
  · by_cases he : env.status (.vkEndCommandBuffer cb) = VK_SUCCESS
    · simp [beginCall] at hb
      simp [record_command_buffer, vkBeginCommandBuffer, checked, emit, getRen, raise,
        vkCmdBeginRenderPass, cmd, vkCmdBindPipeline, vkCmdSetViewport, vkCmdSetScissor,
        vkCmdBindVertexBuffers, vkCmdBindIndexBuffer, vkCmdDrawIndexed, vkCmdEndRenderPass,
        vkEndCommandBuffer, bind_apply, pure_apply, hb, he, beginCall, frameCommands]
    · simp [beginCall] at hb
      simp [record_command_buffer, vkBeginCommandBuffer, checked, emit, getRen, raise,
        vkCmdBeginRenderPass, cmd, vkCmdBindPipeline, vkCmdSetViewport, vkCmdSetScissor,
        vkCmdBindVertexBuffers, vkCmdBindIndexBuffer, vkCmdDrawIndexed, vkCmdEndRenderPass,
        vkEndCommandBuffer, bind_apply, pure_apply, hb, he, beginCall, frameCommands]
  · simp [beginCall] at hb
    simp [record_command_buffer, vkBeginCommandBuffer, checked, emit, getRen, raise,
      bind_apply, pure_apply, hb, beginCall]

/-- What the recorder appends to the trace. -/
theorem appended_record_command_buffer (cfg : Config) (env : Env) (cb idx : Nat) (w : World) :
    appended (record_command_buffer cfg env cb idx) w =
      if env.status (beginCall cb) ≠ VK_SUCCESS then
        [⟨beginCall cb, .status (env.status (beginCall cb))⟩]
      else
        ⟨beginCall cb, .status (env.status (beginCall cb))⟩ ::
          (frameCommands cfg w.ren cb idx).map (fun c => ⟨c, .void⟩) ++
          [⟨.vkEndCommandBuffer cb, .status (env.status (.vkEndCommandBuffer cb))⟩] := by
  obtain ⟨ren, tr⟩ := w
  unfold appended
  rw [record_command_buffer_eq]
  split <;> simp

/-- How the recorder ends. -/
theorem result_record_command_buffer (cfg : Config) (env : Env) (cb idx : Nat) (w : World) :
    (record_command_buffer cfg env cb idx w).1 =
      if env.status (beginCall cb) ≠ VK_SUCCESS then
        .raised (.runtime_error "Failed to begin recording command buffer!")
      else if env.status (.vkEndCommandBuffer cb) ≠ VK_SUCCESS then
        .raised (.runtime_error "Failed to record command buffer!")
      else .ok () := by
  obtain ⟨ren, tr⟩ := w
  rw [record_command_buffer_eq]
  split <;> simp

/-! ## Conversion to `float` -/

/-- A number of at most 24 bits, and `2^24` itself, is converted exactly. -/
theorem u32_to_float_exact (rm : Rounding) (n : Nat) (h : n ≤ 2 ^ 24) :
    u32_to_float rm n = n := by
  rcases Nat.lt_or_eq_of_le h with h1 | h1
  · have hz : excessBits 8 n = 0 := by
      rw [excessBits]
      exact if_pos h1
    simp [u32_to_float, hz, Nat.mod_one]
  · subst h1
    cases rm <;> decide

/-- No rounding direction converts `2^24 + 1` exactly. -/
theorem u32_to_float_inexact (rm : Rounding) : u32_to_float rm 16777217 ≠ 16777217 := by
  cases rm <;> decide

/-! ## Claims about `record_command_buffer` -/

/-- C1: when `record_command_buffer` returns normally, the commands it recorded
into the buffer are, in this order, begin render pass, bind pipeline, set
viewport, set scissor, bind vertex buffers, bind index buffer, draw indexed and
end render pass, all on the given command buffer; the first of them is the
begin of the pass, the last one its end, and they lie between the begin and
the end of the buffer. -/
theorem record_command_buffer_command_order (cfg : Config) (env : Env) (cb idx : Nat)
    (w : World) (h : (record_command_buffer cfg env cb idx w).1 = .ok ()) :
    commands (appended (record_command_buffer cfg env cb idx) w) =
        [(cb, .beginRenderPass), (cb, .bindPipeline), (cb, .setViewport), (cb, .setScissor),
         (cb, .bindVertexBuffers), (cb, .bindIndexBuffer), (cb, .drawIndexed),
         (cb, .endRenderPass)] ∧
      (commands (appended (record_command_buffer cfg env cb idx) w)).head? =
        some (cb, .beginRenderPass) ∧
      (commands (appended (record_command_buffer cfg env cb idx) w)).getLast? =
        some (cb, .endRenderPass) ∧
      ((appended (record_command_buffer cfg env cb idx) w).map Event.call).head? =
        some (beginCall cb) ∧
      ((appended (record_command_buffer cfg env cb idx) w).map Event.call).getLast? =
        some (.vkEndCommandBuffer cb) ∧
      (appended (record_command_buffer cfg env cb idx) w).length = 10 := by
  rw [result_record_command_buffer] at h
  by_cases hb : env.status (beginCall cb) = VK_SUCCESS
  · have ha := appended_record_command_buffer cfg env cb idx w
    simp only [hb, ne_eq, not_true_eq_false, if_false] at ha
    rw [ha]
    simp [commands, frameCommands, Call.command?, List.filterMap_cons, beginCall]
  · simp [hb] at h

/-- C1 at a concrete input: a recording in which begin and end succeed. -/
theorem record_command_buffer_command_order_witness :
    (record_command_buffer cfgQuad envOk 7 1 ⟨renSmall, []⟩).1 = .ok () ∧
    commands (appended (record_command_buffer cfgQuad envOk 7 1) ⟨renSmall, []⟩) =
      [(7, .beginRenderPass), (7, .bindPipeline), (7, .setViewport), (7, .setScissor),
       (7, .bindVertexBuffers), (7, .bindIndexBuffer), (7, .drawIndexed),
       (7, .endRenderPass)] :=
  ⟨by decide,
    (record_command_buffer_command_order cfgQuad envOk 7 1 ⟨renSmall, []⟩ (by decide)).1⟩

/-- C2, as stated, fails: with a stored swap-chain extent of width `2^24 + 1`
the recorded viewport is not that wide, because the width goes through a
conversion to `float`. -/
theorem viewport_width_counterexample :
    ¬ ∀ (cfg : Config) (env : Env) (cb idx : Nat) (w : World),
        w.ren.swap_chain_extent.width < 2 ^ 32 → w.ren.swap_chain_extent.height < 2 ^ 32 →
        ∀ v ∈ viewports (appended (record_command_buffer cfg env cb idx) w),
          v.x = 0 ∧ v.y = 0 ∧ v.width = w.ren.swap_chain_extent.width ∧
            v.height = w.ren.swap_chain_extent.height := by
  intro h
  have h1 := h cfgQuad envOk 7 1 ⟨renWide, []⟩ (by decide) (by decide)
    ⟨0, 0, 16777216, 600, 0, 1⟩ (by decide)
  exact absurd h1.2.2.1 (by decide)

/-- C2, amended: once the buffer has begun, the recorder sets one scissor
rectangle and begins one render pass, both with offset (0,0) and exactly the
stored swap-chain extent, whatever that extent is; it sets one viewport with
origin (0,0) whose width and height are the stored width and height converted
to `float`, and a width or height of at most `2^24` is converted exactly. -/
theorem record_command_buffer_extent (cfg : Config) (env : Env) (cb idx : Nat) (w : World)
    (hb : env.status (beginCall cb) = VK_SUCCESS) :
    scissors (appended (record_command_buffer cfg env cb idx) w) =
        [{ offset := { x := 0, y := 0 }, extent := w.ren.swap_chain_extent }] ∧
      renderAreas (appended (record_command_buffer cfg env cb idx) w) =
        [{ offset := { x := 0, y := 0 }, extent := w.ren.swap_chain_extent }] ∧
      viewports (appended (record_command_buffer cfg env cb idx) w) =
        [{ x := 0, y := 0
           width := u32_to_float cfg.rounding w.ren.swap_chain_extent.width
           height := u32_to_float cfg.rounding w.ren.swap_chain_extent.height
           minDepth := 0, maxDepth := 1 }] ∧
      (w.ren.swap_chain_extent.width ≤ 2 ^ 24 →
        u32_to_float cfg.rounding w.ren.swap_chain_extent.width =
          w.ren.swap_chain_extent.width) ∧
      (w.ren.swap_chain_extent.height ≤ 2 ^ 24 →
        u32_to_float cfg.rounding w.ren.swap_chain_extent.height =
          w.ren.swap_chain_extent.height) := by
  have ha := appended_record_command_buffer cfg env cb idx w
  simp only [hb, ne_eq, not_true_eq_false, if_false] at ha
  rw [ha]
  refine ⟨?_, ?_, ?_, u32_to_float_exact _ _, u32_to_float_exact _ _⟩ <;>
    simp [scissors, renderAreas, viewports, frameCommands, beginCall, List.filterMap_cons]

/-- C2 (amended) at a concrete input: an 800 x 600 swap chain. -/
theorem record_command_buffer_extent_witness :
    envOk.status (beginCall 7) = VK_SUCCESS ∧
    viewports (appended (record_command_buffer cfgQuad envOk 7 1) ⟨renSmall, []⟩) =
      [{ x := 0, y := 0, width := 800, height := 600, minDepth := 0, maxDepth := 1 }] ∧
    scissors (appended (record_command_buffer cfgQuad envOk 7 1) ⟨renSmall, []⟩) =
      [{ offset := { x := 0, y := 0 }, extent := { width := 800, height := 600 } }] :=
  have h := record_command_buffer_extent cfgQuad envOk 7 1 ⟨renSmall, []⟩ (by decide)
  ⟨by decide, by rw [h.2.2.1]; decide, h.1⟩

/-- C6: `record_command_buffer` raises exactly when `vkBeginCommandBuffer` or
`vkEndCommandBuffer` returns a status other than success.  A failing begin
gives "Failed to begin recording command buffer!", a failing end after a
successful begin gives "Failed to record command buffer!", and with two
successes the call returns normally: the two statuses decide the outcome. -/
theorem record_command_buffer_errors (cfg : Config) (env : Env) (cb idx : Nat) (w : World) :
    (record_command_buffer cfg env cb idx w).1 =
        (if env.status (beginCall cb) ≠ VK_SUCCESS then
          .raised (.runtime_error "Failed to begin recording command buffer!")
        else if env.status (.vkEndCommandBuffer cb) ≠ VK_SUCCESS then
          .raised (.runtime_error "Failed to record command buffer!")
        else .ok ()) ∧
      ((∃ e, (record_command_buffer cfg env cb idx w).1 = .raised e) ↔
        (env.status (beginCall cb) ≠ VK_SUCCESS ∨
          env.status (.vkEndCommandBuffer cb) ≠ VK_SUCCESS)) ∧
      (∀ ev ∈ appended (record_command_buffer cfg env cb idx) w, ∀ r, ev.ret = .status r →
        ev.call = beginCall cb ∨ ev.call = .vkEndCommandBuffer cb) := by
  refine ⟨result_record_command_buffer cfg env cb idx w, ?_, ?_⟩
  · rw [result_record_command_buffer]
    by_cases hb : env.status (beginCall cb) = VK_SUCCESS <;>
      by_cases he : env.status (.vkEndCommandBuffer cb) = VK_SUCCESS <;> simp [hb, he]
  · rw [appended_record_command_buffer]
    by_cases hb : env.status (beginCall cb) = VK_SUCCESS <;>
      simp [hb, frameCommands]

/-- C6 at a concrete input: begin and end succeed, the call returns. -/
theorem record_command_buffer_errors_witness :
    (record_command_buffer cfgQuad envOk 7 1 ⟨renSmall, []⟩).1 = .ok () :=
  (record_command_buffer_errors cfgQuad envOk 7 1 ⟨renSmall, []⟩).1.trans (by decide)

/-- C8: `record_command_buffer` is deterministic.  Two calls on the same
command buffer with the same renderer state, the same image index and the same
begin and end statuses append the same calls with the same arguments and end
the same way, whatever else differs in the environment or in the earlier
trace; and any two calls that return normally record the same kinds of command
in the same order, whatever the renderer states, buffers and image indices
are. -/
theorem record_command_buffer_deterministic :
    (∀ (cfg : Config) (env1 env2 : Env) (cb idx : Nat) (w1 w2 : World),
        w1.ren = w2.ren →
        env1.status (beginCall cb) = env2.status (beginCall cb) →
        env1.status (.vkEndCommandBuffer cb) = env2.status (.vkEndCommandBuffer cb) →
        appended (record_command_buffer cfg env1 cb idx) w1 =
            appended (record_command_buffer cfg env2 cb idx) w2 ∧
          (record_command_buffer cfg env1 cb idx w1).1 =
            (record_command_buffer cfg env2 cb idx w2).1) ∧
      (∀ (cfg1 cfg2 : Config) (env1 env2 : Env) (cb1 cb2 idx1 idx2 : Nat) (w1 w2 : World),
        (record_command_buffer cfg1 env1 cb1 idx1 w1).1 = .ok () →
        (record_command_buffer cfg2 env2 cb2 idx2 w2).1 = .ok () →
        (commands (appended (record_command_buffer cfg1 env1 cb1 idx1) w1)).map Prod.snd =
          (commands (appended (record_command_buffer cfg2 env2 cb2 idx2) w2)).map Prod.snd) := by
  constructor
  · intro cfg env1 env2 cb idx w1 w2 hr hb he
    simp only [appended_record_command_buffer, result_record_command_buffer, hr, hb, he,
      and_self]
  · intro cfg1 cfg2 env1 env2 cb1 cb2 idx1 idx2 w1 w2 h1 h2
    rw [result_record_command_buffer] at h1 h2
    have hb1 : env1.status (beginCall cb1) = VK_SUCCESS := by
      by_contra hb
      simp [hb] at h1
    have hb2 : env2.status (beginCall cb2) = VK_SUCCESS := by
      by_contra hb
      simp [hb] at h2
    have ha1 := appended_record_command_buffer cfg1 env1 cb1 idx1 w1
    have ha2 := appended_record_command_buffer cfg2 env2 cb2 idx2 w2
    simp only [hb1, hb2, ne_eq, not_true_eq_false, if_false] at ha1 ha2
    rw [ha1, ha2]
    simp [commands, frameCommands, Call.command?, List.filterMap_cons, beginCall]

/-- C8 at concrete inputs: two earlier traces, and two renderer states. -/
theorem record_command_buffer_deterministic_witness :
    appended (record_command_buffer cfgQuad envOk 7 1) ⟨renSmall, []⟩ =
        appended (record_command_buffer cfgQuad envOk 7 1)
          ⟨renSmall, [⟨.init_surface, .void⟩]⟩ ∧
      (commands (appended (record_command_buffer cfgQuad envOk 7 1) ⟨renSmall, []⟩)).map
          Prod.snd =
        (commands (appended (record_command_buffer cfgQuad envOk 9 0) ⟨renWide, []⟩)).map
          Prod.snd :=
  ⟨(record_command_buffer_deterministic.1 cfgQuad envOk envOk 7 1 ⟨renSmall, []⟩
      ⟨renSmall, [⟨.init_surface, .void⟩]⟩ rfl rfl rfl).1,
    record_command_buffer_deterministic.2 cfgQuad cfgQuad envOk envOk 7 9 1 0
      ⟨renSmall, []⟩ ⟨renWide, []⟩ (by decide) (by decide)⟩

/-- C9: a call of `record_command_buffer` that returns normally, with an image
index inside the framebuffer array (and an index table whose size fits the
32-bit count of the draw call), makes these calls: the render pass begins on
the stored render pass with the framebuffer stored at the image index and one
clear value, the color (0,0,0,1); the stored pipeline is bound at the graphics
bind point; the stored vertex buffer is bound at binding 0 with offset 0; the
stored index buffer is bound at offset 0 with 16-bit indices; and the one draw
is an indexed draw of `INDICES.size()` indices and one instance, with first
index, vertex offset and first instance 0. -/
theorem record_command_buffer_fields (cfg : Config) (env : Env) (cb idx : Nat) (w : World)
    (hidx : idx < w.ren.swap_chain_framebuffers.length)
    (hsize : cfg.INDICES.length < 2 ^ 32)
    (h : (record_command_buffer cfg env cb idx w).1 = .ok ()) :
    ∃ (info : VkRenderPassBeginInfo) (viewport : VkViewport) (scissor : VkRect2D),
      (appended (record_command_buffer cfg env cb idx) w).map Event.call =
        [ beginCall cb,
          .vkCmdBeginRenderPass cb info VK_SUBPASS_CONTENTS_INLINE,
          .vkCmdBindPipeline cb VK_PIPELINE_BIND_POINT_GRAPHICS w.ren.graphics_pipeline,
          .vkCmdSetViewport cb 0 1 [viewport],
          .vkCmdSetScissor cb 0 1 [scissor],
          .vkCmdBindVertexBuffers cb 0 1 [w.ren.vertex_buffer] [0],
          .vkCmdBindIndexBuffer cb w.ren.index_buffer 0 VK_INDEX_TYPE_UINT16,
          .vkCmdDrawIndexed cb cfg.INDICES.length 1 0 0 0,
          .vkCmdEndRenderPass cb,
          .vkEndCommandBuffer cb ] ∧
      info.sType = VK_STRUCTURE_TYPE_RENDER_PASS_BEGIN_INFO ∧
      info.renderPass = w.ren.render_pass ∧
      info.framebuffer = some w.ren.swap_chain_framebuffers[idx] ∧
      info.clearValueCount = 1 ∧
      info.pClearValues = [{ color := [0, 0, 0, 1] }] := by
  rw [result_record_command_buffer] at h
  have hb : env.status (beginCall cb) = VK_SUCCESS := by
    by_contra hb
    simp [hb] at h
  have ha := appended_record_command_buffer cfg env cb idx w
  simp only [hb, ne_eq, not_true_eq_false, if_false] at ha
  rw [ha]
  refine ⟨{ sType := VK_STRUCTURE_TYPE_RENDER_PASS_BEGIN_INFO
            renderPass := w.ren.render_pass
            framebuffer := w.ren.swap_chain_framebuffers[idx]?
            renderArea := { offset := { x := 0, y := 0 }, extent := w.ren.swap_chain_extent }
            clearValueCount := 1
            pClearValues := [{ color := [0, 0, 0, 1] }] },
    { x := 0, y := 0
      width := u32_to_float cfg.rounding w.ren.swap_chain_extent.width
      height := u32_to_float cfg.rounding w.ren.swap_chain_extent.height
      minDepth := 0, maxDepth := 1 },
    { offset := { x := 0, y := 0 }, extent := w.ren.swap_chain_extent },
    ?_, rfl, rfl, ?_, rfl, rfl⟩
  · simp [frameCommands]
    exact hsize
  · simp [List.getElem?_eq_getElem hidx]

/-- C9 at a concrete input: image index 1 of two framebuffers. -/
theorem record_command_buffer_fields_witness :
    (record_command_buffer cfgQuad envOk 7 1 ⟨renSmall, []⟩).1 = .ok () ∧
    ∃ (info : VkRenderPassBeginInfo) (viewport : VkViewport) (scissor : VkRect2D),
      (appended (record_command_buffer cfgQuad envOk 7 1) ⟨renSmall, []⟩).map Event.call =
        [ beginCall 7,
          .vkCmdBeginRenderPass 7 info VK_SUBPASS_CONTENTS_INLINE,
          .vkCmdBindPipeline 7 VK_PIPELINE_BIND_POINT_GRAPHICS 4,
          .vkCmdSetViewport 7 0 1 [viewport],
          .vkCmdSetScissor 7 0 1 [scissor],
          .vkCmdBindVertexBuffers 7 0 1 [5] [0],
          .vkCmdBindIndexBuffer 7 6 0 VK_INDEX_TYPE_UINT16,
          .vkCmdDrawIndexed 7 6 1 0 0 0,
          .vkCmdEndRenderPass 7,
          .vkEndCommandBuffer 7 ] ∧
      info.sType = VK_STRUCTURE_TYPE_RENDER_PASS_BEGIN_INFO ∧
      info.renderPass = 3 ∧
      info.framebuffer = some 11 ∧
      info.clearValueCount = 1 ∧
      info.pClearValues = [{ color := [0, 0, 0, 1] }] :=
  ⟨by decide,
    record_command_buffer_fields cfgQuad envOk 7 1 ⟨renSmall, []⟩ (by decide) (by decide)
      (by decide)⟩

/-! ## The loop of `init` -/

theorem syncCall_zero (dev : Handle) (si : VkSemaphoreCreateInfo) (fi : VkFenceCreateInfo)
    (i : Nat) :
    syncCall dev si fi (3 * i) = .vkCreateSemaphore dev si ⟨.image_available_semaphores, i⟩ := by
  have h1 : 3 * i % 3 = 0 := by omega
  have h2 : 3 * i / 3 = i := by omega
  simp [syncCall, h1, h2]

theorem syncCall_one (dev : Handle) (si : VkSemaphoreCreateInfo) (fi : VkFenceCreateInfo)
    (i : Nat) :
    syncCall dev si fi (3 * i + 1) =
      .vkCreateSemaphore dev si ⟨.render_finished_semaphores, i⟩ := by
  have h1 : (3 * i + 1) % 3 = 1 := by omega
  have h2 : (3 * i + 1) / 3 = i := by omega
  simp [syncCall, h1, h2]

theorem syncCall_two (dev : Handle) (si : VkSemaphoreCreateInfo) (fi : VkFenceCreateInfo)
    (i : Nat) :
    syncCall dev si fi (3 * i + 2) = .vkCreateFence dev fi ⟨.in_flight_fences, i⟩ := by
  have h1 : (3 * i + 2) % 3 = 2 := by omega
  have h2 : (3 * i + 2) / 3 = i := by omega
  simp [syncCall, h1, h2]

theorem syncSlot_zero (i : Nat) : syncSlot (3 * i) = ⟨.image_available_semaphores, i⟩ := by
  have h1 : 3 * i % 3 = 0 := by omega
  have h2 : 3 * i / 3 = i := by omega
  simp [syncSlot, h1, h2]

theorem syncSlot_one (i : Nat) : syncSlot (3 * i + 1) = ⟨.render_finished_semaphores, i⟩ := by
  have h1 : (3 * i + 1) % 3 = 1 := by omega
  have h2 : (3 * i + 1) / 3 = i := by omega
  simp [syncSlot, h1, h2]

theorem syncSlot_two (i : Nat) : syncSlot (3 * i + 2) = ⟨.in_flight_fences, i⟩ := by
  have h1 : (3 * i + 2) % 3 = 2 := by omega
  have h2 : (3 * i + 2) / 3 = i := by omega
  simp [syncSlot, h1, h2]

theorem store_device (r : t_ren) (p : SlotRef) (h : Handle) : (r.store p h).device = r.device := by
  obtain ⟨a, k⟩ := p
  cases a <;> rfl

/-- One round of the loop, computed. -/
theorem init_loop_succ (env : Env) (si : VkSemaphoreCreateInfo) (fi : VkFenceCreateInfo)
    (n i : Nat) (ren : t_ren) (tr : List Event) :
    init_loop env si fi (n + 1) i ⟨ren, tr⟩ =
      if env.status (syncCall ren.device si fi (3 * i)) ≠ VK_SUCCESS then
        (.raised syncError,
          ⟨ren, tr ++ logged env [syncCall ren.device si fi (3 * i)]⟩)
      else if env.status (syncCall ren.device si fi (3 * i + 1)) ≠ VK_SUCCESS then
        (.raised syncError,
          ⟨storeAll env ren.device si fi [3 * i] ren,
            tr ++ logged env [syncCall ren.device si fi (3 * i),
              syncCall ren.device si fi (3 * i + 1)]⟩)
      else if env.status (syncCall ren.device si fi (3 * i + 2)) ≠ VK_SUCCESS then
        (.raised syncError,
          ⟨storeAll env ren.device si fi [3 * i, 3 * i + 1] ren,
            tr ++ logged env [syncCall ren.device si fi (3 * i),
              syncCall ren.device si fi (3 * i + 1), syncCall ren.device si fi (3 * i + 2)]⟩)
      else
        init_loop env si fi n (i + 1)
          ⟨storeAll env ren.device si fi [3 * i, 3 * i + 1, 3 * i + 2] ren,
            tr ++ logged env [syncCall ren.device si fi (3 * i),
              syncCall ren.device si fi (3 * i + 1), syncCall ren.device si fi (3 * i + 2)]⟩ := by
  simp only [syncCall_zero, syncCall_one, syncCall_two, storeAll, List.foldl, syncSlot_zero,
    syncSlot_one, syncSlot_two, logged, List.map]
  by_cases h0 : env.status (.vkCreateSemaphore ren.device si ⟨.image_available_semaphores, i⟩)
      = VK_SUCCESS
  · by_cases h1 : env.status
        (.vkCreateSemaphore ren.device si ⟨.render_finished_semaphores, i⟩) = VK_SUCCESS
    · by_cases h2 : env.status (.vkCreateFence ren.device fi ⟨.in_flight_fences, i⟩)
          = VK_SUCCESS
      · simp [init_loop, Exec.or, failed, vkCreateSemaphore, vkCreateFence, checked, emit,
          getRen, modifyRen, raise, bind_apply, pure_apply, h0, h1, h2, store_device, syncError]
      · simp [init_loop, Exec.or, failed, vkCreateSemaphore, vkCreateFence, checked, emit,
          getRen, modifyRen, raise, bind_apply, pure_apply, h0, h1, h2, store_device, syncError]
    · simp [init_loop, Exec.or, failed, vkCreateSemaphore, vkCreateFence, checked, emit,
        getRen, modifyRen, raise, bind_apply, pure_apply, h0, h1, store_device, syncError]
  · simp [init_loop, Exec.or, failed, vkCreateSemaphore, vkCreateFence, checked, emit,
      getRen, modifyRen, raise, bind_apply, pure_apply, h0, syncError]

theorem storeAll_device (env : Env) (dev : Handle) (si : VkSemaphoreCreateInfo)
    (fi : VkFenceCreateInfo) (ps : List Nat) (ren : t_ren) :
    (storeAll env dev si fi ps ren).device = ren.device := by
  induction ps generalizing ren with
  | nil => rfl
  | cons p ps ih =>
    show (storeAll env dev si fi ps _).device = _
    rw [ih, store_device]

theorem storeAll_append (env : Env) (dev : Handle) (si : VkSemaphoreCreateInfo)
    (fi : VkFenceCreateInfo) (ps qs : List Nat) (ren : t_ren) :
    storeAll env dev si fi (ps ++ qs) ren =
      storeAll env dev si fi qs (storeAll env dev si fi ps ren) := by
  simp [storeAll, List.foldl_append]

theorem range_three (s N : Nat) :
    List.range' s (N + 3) = [s, s + 1, s + 2] ++ List.range' (s + 3) N := by
  simp [List.range'_succ]

/-- The loop of `init`, computed: some number `N` of creation calls succeed in
the order of the source; either these are all `3 * n` calls and the loop
returns, or call `N` fails and the loop raises at once. -/
theorem init_loop_spec (env : Env) (si : VkSemaphoreCreateInfo) (fi : VkFenceCreateInfo)
    (n i : Nat) (ren : t_ren) (tr : List Event) :
    ∃ N, N ≤ 3 * n ∧
      (∀ p ∈ List.range' (3 * i) N, env.status (syncCall ren.device si fi p) = VK_SUCCESS) ∧
      ((N = 3 * n ∧
          init_loop env si fi n i ⟨ren, tr⟩ =
            (.ok (), ⟨storeAll env ren.device si fi (List.range' (3 * i) N) ren,
              tr ++ logged env ((List.range' (3 * i) N).map (syncCall ren.device si fi))⟩)) ∨
        (N < 3 * n ∧ env.status (syncCall ren.device si fi (3 * i + N)) ≠ VK_SUCCESS ∧
          init_loop env si fi n i ⟨ren, tr⟩ =
            (.raised syncError, ⟨storeAll env ren.device si fi (List.range' (3 * i) N) ren,
              tr ++ logged env
                ((List.range' (3 * i) (N + 1)).map (syncCall ren.device si fi))⟩))) := by
  induction n generalizing i ren tr with
  | zero =>
    refine ⟨0, le_refl _, by simp, Or.inl ⟨rfl, ?_⟩⟩
    simp [init_loop, pure_apply, storeAll, logged]
  | succ n ih =>
    rw [init_loop_succ]
    by_cases h0 : env.status (syncCall ren.device si fi (3 * i)) = VK_SUCCESS
    · by_cases h1 : env.status (syncCall ren.device si fi (3 * i + 1)) = VK_SUCCESS
      · by_cases h2 : env.status (syncCall ren.device si fi (3 * i + 2)) = VK_SUCCESS
        · obtain ⟨N, hN, hok, hcase⟩ := ih (i + 1)
            (storeAll env ren.device si fi [3 * i, 3 * i + 1, 3 * i + 2] ren)
            (tr ++ logged env [syncCall ren.device si fi (3 * i),
              syncCall ren.device si fi (3 * i + 1), syncCall ren.device si fi (3 * i + 2)])
          rw [storeAll_device] at hok hcase
          have h3 : 3 * (i + 1) = 3 * i + 3 := by ring
          rw [h3] at hok hcase
          refine ⟨N + 3, by omega, ?_, ?_⟩
          · intro p hp
            rw [range_three] at hp
            rcases List.mem_append.1 hp with hp | hp
            · simp at hp
              rcases hp with rfl | rfl | rfl <;> assumption
            · exact hok p hp
          · simp only [h0, h1, h2, ne_eq, not_true_eq_false, if_false]
            rcases hcase with ⟨hN3, heq⟩ | ⟨hN3, hfail, heq⟩
            · refine Or.inl ⟨by omega, ?_⟩
              rw [heq, range_three, storeAll_append]
              simp [logged]
            · refine Or.inr ⟨by omega, ?_, ?_⟩
              · have : 3 * i + (N + 3) = 3 * i + 3 + N := by ring
                rw [this]
                exact hfail
              · have : N + 3 + 1 = (N + 1) + 3 := by ring
                rw [heq, this, range_three, range_three, storeAll_append]
                simp [logged]
        · refine ⟨2, by omega, ?_, Or.inr ⟨by omega, h2, ?_⟩⟩
          · intro p hp
            simp [List.range'_succ] at hp
            rcases hp with rfl | rfl <;> assumption
          · simp [h0, h1, h2, List.range'_succ]
      · refine ⟨1, by omega, ?_, Or.inr ⟨by omega, h1, ?_⟩⟩
        · intro p hp
          simp [List.range'_succ] at hp
          rcases hp with rfl
          assumption
        · simp [h0, h1, List.range'_succ]
    · refine ⟨0, by omega, by simp, Or.inr ⟨by omega, h0, ?_⟩⟩
      simp [h0, List.range'_succ, storeAll]

theorem store_array (r : t_ren) (b : t_ren_array) (j : Nat) (h : Handle) (a : t_ren_array) :
    (r.store ⟨b, j⟩ h).array a =
      if a = b then (r.array a).set j (some h) else r.array a := by
  cases a <;> cases b <;> simp [t_ren.store, t_ren.setArray, t_ren.array]

theorem syncSlot_cases (p : Nat) :
    (p = 3 * (p / 3) ∧ syncSlot p = ⟨.image_available_semaphores, p / 3⟩) ∨
    (p = 3 * (p / 3) + 1 ∧ syncSlot p = ⟨.render_finished_semaphores, p / 3⟩) ∨
    (p = 3 * (p / 3) + 2 ∧ syncSlot p = ⟨.in_flight_fences, p / 3⟩) := by
  have h : p % 3 = 0 ∨ p % 3 = 1 ∨ p % 3 = 2 := by omega
  rcases h with h | h | h
  · exact Or.inl ⟨by omega, by simp [syncSlot, h]⟩
  · exact Or.inr (Or.inl ⟨by omega, by simp [syncSlot, h]⟩)
  · exact Or.inr (Or.inr ⟨by omega, by simp [syncSlot, h]⟩)

/-- Call `p` is the one that writes element `k` of array `a`. -/
theorem syncPos_iff (a : t_ren_array) (k p : Nat) :
    syncPos a k = some p ↔ syncSlot p = ⟨a, k⟩ := by
  rcases syncSlot_cases p with ⟨hp, hs⟩ | ⟨hp, hs⟩ | ⟨hp, hs⟩ <;> rw [hs] <;> cases a <;>
    simp [syncPos] <;> omega

/-- The element `k` of array `a` after one successful creation call. -/
theorem store_syncSlot_getElem? (r : t_ren) (p : Nat) (h : Handle) (a : t_ren_array)
    (k : Nat) :
    ((r.store (syncSlot p) h).array a)[k]? =
      if syncPos a k = some p ∧ k < (r.array a).length then some (some h)
      else (r.array a)[k]? := by
  simp only [syncPos_iff]
  generalize syncSlot p = s
  obtain ⟨b, j⟩ := s
  rw [store_array]
  by_cases hab : a = b
  · subst hab
    by_cases hjk : j = k
    · subst hjk
      by_cases hl : j < (r.array a).length
      · simp [hl]
      · have hle : (r.array a).length ≤ j := not_lt.1 hl
        simp [hl, List.getElem?_set, List.getElem?_eq_none hle]
    · simp [hjk, List.getElem?_set]
  · have hba : ¬ b = a := fun h => hab h.symm
    simp [hab, hba]

theorem store_syncSlot_length (r : t_ren) (p : Nat) (h : Handle) (a : t_ren_array) :
    ((r.store (syncSlot p) h).array a).length = (r.array a).length := by
  generalize syncSlot p = s
  obtain ⟨b, j⟩ := s
  rw [store_array]
  split <;> simp

theorem storeAll_length (env : Env) (dev : Handle) (si : VkSemaphoreCreateInfo)
    (fi : VkFenceCreateInfo) (ps : List Nat) (ren : t_ren) (a : t_ren_array) :
    ((storeAll env dev si fi ps ren).array a).length = (ren.array a).length := by
  induction ps generalizing ren with
  | nil => rfl
  | cons p ps ih =>
    show ((storeAll env dev si fi ps _).array a).length = _
    rw [ih, store_syncSlot_length]

/-- The element `k` of array `a` after the creation calls `ps`: the handle of
the call that writes it, when that call is among `ps`, and the old element
otherwise. -/
theorem storeAll_getElem? (env : Env) (dev : Handle) (si : VkSemaphoreCreateInfo)
    (fi : VkFenceCreateInfo) (ps : List Nat) (ren : t_ren) (a : t_ren_array) (k : Nat) :
    ((storeAll env dev si fi ps ren).array a)[k]? =
      match syncPos a k with
      | some p =>
        if p ∈ ps ∧ k < (ren.array a).length then
          some (some (env.handle (syncCall dev si fi p) 0))
        else (ren.array a)[k]?
      | none => (ren.array a)[k]? := by
  induction ps generalizing ren with
  | nil => cases h : syncPos a k <;> simp [storeAll]
  | cons q ps ih =>
    show ((storeAll env dev si fi ps _).array a)[k]? = _
    rw [ih, store_syncSlot_length, store_syncSlot_getElem?]
    cases h : syncPos a k with
    | none => simp
    | some p =>
      by_cases hl : k < (ren.array a).length
      · by_cases hp : p ∈ ps
        · simp [hp, hl]
        · by_cases hq : p = q
          · subst hq
            simp [hp, hl]
          · have hq2 : ¬ q = p := fun h => hq h.symm
            simp [hp, hl, hq, hq2]
      · simp [hl]

theorem store_command_pool (r : t_ren) (p : SlotRef) (h : Handle) :
    (r.store p h).command_pool = r.command_pool := by
  obtain ⟨a, k⟩ := p
  cases a <;> rfl

/-- The other fields are left alone by the creation calls. -/
theorem storeAll_command_pool (env : Env) (dev : Handle) (si : VkSemaphoreCreateInfo)
    (fi : VkFenceCreateInfo) (ps : List Nat) (ren : t_ren) :
    (storeAll env dev si fi ps ren).command_pool = ren.command_pool := by
  induction ps generalizing ren with
  | nil => rfl
  | cons p ps ih =>
    show (storeAll env dev si fi ps _).command_pool = _
    rw [ih]
    exact store_command_pool _ _ _


/-! ## `init` before its loop -/

theorem bind_assoc_apply {α β γ : Type} (x : Exec α) (f : α → Exec β) (g : β → Exec γ) :
    (x >>= f) >>= g = x >>= fun a => f a >>= g := by
  funext w
  simp only [bind_apply]
  rcases x w with ⟨_ | _, w1⟩ <;> rfl

theorem raise_bind {α β : Type} (e : Exn) (f : α → Exec β) : (raise e : Exec α) >>= f = raise e :=
  rfl

theorem pure_bind_apply {α β : Type} (a : α) (f : α → Exec β) : (pure a : Exec α) >>= f = f a :=
  rfl

theorem ite_bind_apply {α β : Type} (c : Prop) [Decidable c] (x y : Exec α) (f : α → Exec β) :
    (if c then x else y) >>= f = if c then x >>= f else y >>= f := by
  split <;> rfl

/-- The function `init` is its statements before the loop, then the loop. -/
theorem init_eq (cfg : Config) (env : Env) (title : String) :
    init cfg env title =
      init_setup cfg env title >>= fun _ =>
        init_loop env semaphore_info fence_info cfg.MAX_FRAMES_IN_FLIGHT 0 := by
  simp only [init, init_setup, bind_assoc_apply, semaphore_info, fence_info, raise_bind,
    pure_bind_apply, ite_bind_apply]

theorem fill_length (f : Nat → Handle) (n : Nat) (xs : List (Option Handle)) :
    (fill f n xs).length = xs.length := by
  induction n with
  | zero => rfl
  | succ n ih => simp [fill, ih]

theorem fill_getElem? (f : Nat → Handle) (n : Nat) (xs : List (Option Handle)) (k : Nat) :
    (fill f n xs)[k]? = if k < n ∧ k < xs.length then some (some (f k)) else xs[k]? := by
  induction n with
  | zero => simp [fill]
  | succ n ih =>
    simp only [fill, List.getElem?_set, fill_length, ih]
    by_cases hk : n = k
    · subst hk
      by_cases hl : n < xs.length
      · simp [hl]
      · have hle : xs.length ≤ n := not_lt.1 hl
        simp [hl, List.getElem?_eq_none hle]
    · have h1 : (k < n + 1) = (k < n) := by
        apply propext
        omega
      simp [hk, h1]

theorem helper_bind {β : Type} (c : Call) (f : Helper) (rest : Unit → Exec β) (ren : t_ren)
    (tr : List Event) :
    (helper c f >>= rest) ⟨ren, tr⟩ =
      match f ren with
      | (r1, none) => rest () ⟨r1, tr ++ [⟨c, .void⟩]⟩
      | (r1, some e) => (.raised e, ⟨r1, tr ++ [⟨c, .threw e⟩]⟩) := by
  rcases h : f ren with ⟨r1, _ | e⟩ <;>
    simp [helper, h, getRen, modifyRen, emit, raise, bind_apply]

theorem getRen_bind {β : Type} (rest : t_ren → Exec β) (ren : t_ren) (tr : List Event) :
    (getRen >>= rest) ⟨ren, tr⟩ = rest ren ⟨ren, tr⟩ := rfl

theorem find_queue_families_bind {β : Type} (env : Env) (dev : Handle)
    (rest : t_queue_family_indices → Exec β) (ren : t_ren) (tr : List Event) :
    (find_queue_families env dev >>= rest) ⟨ren, tr⟩ =
      rest (env.find_queue_families ren dev)
        ⟨ren, tr ++ [⟨.find_queue_families dev, .families (env.find_queue_families ren dev)⟩]⟩ := by
  simp [find_queue_families, getRen, emit, bind_apply, pure_apply]

theorem value_bind {α β : Type} (o : Option α) (rest : α → Exec β) (w : World) :
    (value o >>= rest) w =
      match o with
      | some a => rest a w
      | none => (.raised .bad_optional_access, w) := by
  cases o <;> rfl

theorem vkCreateCommandPool_bind {β : Type} (env : Env) (dev : Handle)
    (info : VkCommandPoolCreateInfo) (rest : VkResult → Exec β) (ren : t_ren)
    (tr : List Event) :
    (vkCreateCommandPool env dev info >>= rest) ⟨ren, tr⟩ =
      rest (env.status (.vkCreateCommandPool dev info))
        ⟨if env.status (.vkCreateCommandPool dev info) = VK_SUCCESS then
            { ren with command_pool := some (env.handle (.vkCreateCommandPool dev info) 0) }
          else ren,
          tr ++ [⟨.vkCreateCommandPool dev info,
            .status (env.status (.vkCreateCommandPool dev info))⟩]⟩ := by
  by_cases h : env.status (.vkCreateCommandPool dev info) = VK_SUCCESS <;>
    simp [vkCreateCommandPool, checked, emit, modifyRen, bind_apply, pure_apply, h]

theorem vkAllocateCommandBuffers_bind {β : Type} (env : Env) (dev : Handle)
    (info : VkCommandBufferAllocateInfo) (rest : VkResult → Exec β) (ren : t_ren)
    (tr : List Event) :
    (vkAllocateCommandBuffers env dev info >>= rest) ⟨ren, tr⟩ =
      rest (env.status (.vkAllocateCommandBuffers dev info))
        ⟨if env.status (.vkAllocateCommandBuffers dev info) = VK_SUCCESS then
            { ren with
              command_buffers :=
                fill (env.handle (.vkAllocateCommandBuffers dev info)) info.commandBufferCount
                  ren.command_buffers }
          else ren,
          tr ++ [⟨.vkAllocateCommandBuffers dev info,
            .status (env.status (.vkAllocateCommandBuffers dev info))⟩]⟩ := by
  by_cases h : env.status (.vkAllocateCommandBuffers dev info) = VK_SUCCESS <;>
    simp [vkAllocateCommandBuffers, checked, emit, modifyRen, bind_apply, pure_apply, h]

theorem malloc_bind {β : Type} (dest : t_ren_array) (size : Nat) (rest : Unit → Exec β)
    (ren : t_ren) (tr : List Event) :
    (malloc dest size >>= rest) ⟨ren, tr⟩ =
      rest () ⟨ren.setArray dest (List.replicate (size / sizeof_handle) none),
        tr ++ [⟨.malloc dest size, .pointer⟩]⟩ := by
  simp [malloc, emit, modifyRen, bind_apply]

theorem malloc_apply (dest : t_ren_array) (size : Nat) (ren : t_ren) (tr : List Event) :
    malloc dest size ⟨ren, tr⟩ =
      (.ok (), ⟨ren.setArray dest (List.replicate (size / sizeof_handle) none),
        tr ++ [⟨.malloc dest size, .pointer⟩]⟩) := by
  simp [malloc, emit, modifyRen, bind_apply]

theorem raise_apply {α : Type} (e : Exn) (w : World) : (raise e : Exec α) w = (.raised e, w) :=
  rfl

theorem size_div_left (n : Nat) (h : n < 2 ^ 32) :
    n * sizeof_handle % 2 ^ 64 / sizeof_handle = n := by
  simp only [sizeof_handle]
  omega

theorem size_div_right (n : Nat) (h : n < 2 ^ 32) :
    sizeof_handle * n % 2 ^ 64 / sizeof_handle = n := by
  simp only [sizeof_handle]
  omega

set_option maxHeartbeats 1600000 in
/-- What the statements of `init` before its loop do, from any renderer state,
in any environment. -/
theorem init_setup_spec (cfg : Config) (env : Env) (title : String) (ren : t_ren)
    (tr : List Event) :
    (init_setup cfg env title ⟨ren, tr⟩).2.trace =
        tr ++ appended (init_setup cfg env title) ⟨ren, tr⟩ ∧
      (∀ ev ∈ appended (init_setup cfg env title) ⟨ren, tr⟩, ev.call.isSyncCreate = false) ∧
      match (init_setup cfg env title ⟨ren, tr⟩).1 with
      | .ok _ =>
        (∀ ev ∈ appended (init_setup cfg env title) ⟨ren, tr⟩, ev.succeeded = true) ∧
        (∃ a : StepArgs, a.title = title ∧
          a.sync_device = (init_setup cfg env title ⟨ren, tr⟩).2.ren.device ∧
          (appended (init_setup cfg env title) ⟨ren, tr⟩).map Event.call = setupCalls cfg a) ∧
        (cfg.MAX_FRAMES_IN_FLIGHT < 2 ^ 32 →
          initArrays cfg env (appended (init_setup cfg env title) ⟨ren, tr⟩)
            (init_setup cfg env title ⟨ren, tr⟩).2.ren)
      | .raised e =>
        (∀ ev ∈ (appended (init_setup cfg env title) ⟨ren, tr⟩).dropLast, ev.succeeded = true) ∧
        (∃ last, (appended (init_setup cfg env title) ⟨ren, tr⟩).getLast? = some last ∧
          raisedBy e last) ∧
        (∃ a : StepArgs, a.title = title ∧
          (appended (init_setup cfg env title) ⟨ren, tr⟩).map Event.call <+:
            setupCalls cfg a) := by
  simp only [appended, init_setup]
  rcases h1 : env.init_instance title ren with ⟨r1, _ | e1⟩
  swap
  · simp only [helper_bind, h1]
    refine ⟨by simp, by simp [Call.isSyncCreate], by simp [Event.succeeded],
      by simp [raisedBy, Call.failureMessage?],
      ⟨⟨title, 0, 0, 0, none, 0, 0⟩, rfl, by simp [setupCalls]⟩⟩
  simp only [helper_bind, h1]
  rcases h2 : env.init_surface r1 with ⟨r2, _ | e2⟩
  swap
  · simp only [helper_bind, h2]
    refine ⟨by simp, by simp [Call.isSyncCreate], by simp [Event.succeeded],
      by simp [raisedBy, Call.failureMessage?],
      ⟨⟨title, 0, 0, 0, none, 0, 0⟩, rfl, by simp [setupCalls]⟩⟩
  simp only [helper_bind, h2]
  rcases h3 : env.init_device r2 with ⟨r3, _ | e3⟩
  swap
  · simp only [helper_bind, h3]
    refine ⟨by simp, by simp [Call.isSyncCreate], by simp [Event.succeeded],
      by simp [raisedBy, Call.failureMessage?],
      ⟨⟨title, 0, 0, 0, none, 0, 0⟩, rfl, by simp [setupCalls]⟩⟩
  simp only [helper_bind, h3]
  rcases h4 : env.init_swap_chain r3 with ⟨r4, _ | e4⟩
  swap
  · simp only [helper_bind, h4]
    refine ⟨by simp, by simp [Call.isSyncCreate], by simp [Event.succeeded],
      by simp [raisedBy, Call.failureMessage?],
      ⟨⟨title, 0, 0, 0, none, 0, 0⟩, rfl, by simp [setupCalls]⟩⟩
  simp only [helper_bind, h4]
  rcases h5 : env.init_image_views r4 with ⟨r5, _ | e5⟩
  swap
  · simp only [helper_bind, h5]
    refine ⟨by simp, by simp [Call.isSyncCreate], by simp [Event.succeeded],
      by simp [raisedBy, Call.failureMessage?],
      ⟨⟨title, 0, 0, 0, none, 0, 0⟩, rfl, by simp [setupCalls]⟩⟩
  simp only [helper_bind, h5]
  rcases h6 : env.init_render_pass r5 with ⟨r6, _ | e6⟩
  swap
  · simp only [helper_bind, h6]
    refine ⟨by simp, by simp [Call.isSyncCreate], by simp [Event.succeeded],
      by simp [raisedBy, Call.failureMessage?],
      ⟨⟨title, 0, 0, 0, none, 0, 0⟩, rfl, by simp [setupCalls]⟩⟩
  simp only [helper_bind, h6]
  rcases h7 : env.init_graphics_pipeline r6 with ⟨r7, _ | e7⟩
  swap
  · simp only [helper_bind, h7]
    refine ⟨by simp, by simp [Call.isSyncCreate], by simp [Event.succeeded],
      by simp [raisedBy, Call.failureMessage?],
      ⟨⟨title, 0, 0, 0, none, 0, 0⟩, rfl, by simp [setupCalls]⟩⟩
  simp only [helper_bind, h7]
  rcases h8 : env.init_framebuffers r7 with ⟨r8, _ | e8⟩
  swap
  · simp only [helper_bind, h8]
    refine ⟨by simp, by simp [Call.isSyncCreate], by simp [Event.succeeded],
      by simp [raisedBy, Call.failureMessage?],
      ⟨⟨title, 0, 0, 0, none, 0, 0⟩, rfl, by simp [setupCalls]⟩⟩
  simp only [helper_bind, h8]
  simp only [getRen_bind, find_queue_families_bind, value_bind]
  rcases hq : env.find_queue_families r8 r8.physical_device with ⟨_ | qfi⟩
  · simp only [hq]
    refine ⟨by simp, by simp [Call.isSyncCreate], by simp [Event.succeeded],
      by simp [raisedBy, Call.failureMessage?],
      ⟨⟨title, r8.physical_device, 0, 0, none, 0, 0⟩, rfl, by simp [setupCalls]⟩⟩
  simp only [hq, vkCreateCommandPool_bind]
  by_cases hp : env.status (.vkCreateCommandPool r8.device
      { sType := VK_STRUCTURE_TYPE_COMMAND_POOL_CREATE_INFO
        flags := VK_COMMAND_POOL_CREATE_RESET_COMMAND_BUFFER_BIT
        queueFamilyIndex := qfi }) = VK_SUCCESS
  swap
  · simp only [hp, ne_eq, not_false_eq_true, if_true, if_false, raise_bind, raise_apply]
    refine ⟨by simp, by simp [Call.isSyncCreate], by simp [Event.succeeded],
      by simp [raisedBy, Call.failureMessage?, hp],
      ⟨⟨title, r8.physical_device, r8.device, qfi, none, 0, 0⟩, rfl, by simp [setupCalls]⟩⟩
  simp only [hp, ne_eq, not_true_eq_false, if_true, if_false, pure_bind_apply]
  rcases h9 : env.init_vertex_buffer ({ r8 with
      command_pool := some (env.handle (.vkCreateCommandPool r8.device
        { sType := VK_STRUCTURE_TYPE_COMMAND_POOL_CREATE_INFO
          flags := VK_COMMAND_POOL_CREATE_RESET_COMMAND_BUFFER_BIT
          queueFamilyIndex := qfi }) 0) } : t_ren) with ⟨r9, _ | e9⟩
  swap
  · simp only [helper_bind, h9]
    refine ⟨by simp, by simp [Call.isSyncCreate], by simp [Event.succeeded],
      by simp [raisedBy, Call.failureMessage?],
      ⟨⟨title, r8.physical_device, r8.device, qfi, none, 0, 0⟩, rfl, by simp [setupCalls]⟩⟩
  simp only [helper_bind, h9]
  rcases h10 : env.init_index_buffer r9 with ⟨r10, _ | e10⟩
  swap
  · simp only [helper_bind, h10]
    refine ⟨by simp, by simp [Call.isSyncCreate], by simp [Event.succeeded],
      by simp [raisedBy, Call.failureMessage?],
      ⟨⟨title, r8.physical_device, r8.device, qfi, none, 0, 0⟩, rfl, by simp [setupCalls]⟩⟩
  simp only [helper_bind, h10, getRen_bind, malloc_bind, vkAllocateCommandBuffers_bind,
    t_ren.setArray]
  by_cases ha : env.status (.vkAllocateCommandBuffers r10.device
      { sType := VK_STRUCTURE_TYPE_COMMAND_BUFFER_ALLOCATE_INFO
        commandPool := r10.command_pool
        level := VK_COMMAND_BUFFER_LEVEL_PRIMARY
        commandBufferCount := cfg.MAX_FRAMES_IN_FLIGHT % 2 ^ 32 }) = VK_SUCCESS
  swap
  · simp only [ha, ne_eq, not_false_eq_true, if_true, if_false, raise_bind, raise_apply]
    refine ⟨by simp, by simp [Call.isSyncCreate], by simp [Event.succeeded],
      (by simp [raisedBy, Call.failureMessage?]; exact ha),
      ⟨⟨title, r8.physical_device, r8.device, qfi, r10.command_pool, r10.device, 0⟩, rfl, by simp [setupCalls]⟩⟩
  simp only [ha, ne_eq, not_true_eq_false, if_true, if_false, pure_bind_apply, malloc_bind,
    malloc_apply, t_ren.setArray]
  refine ⟨by simp, by simp [Call.isSyncCreate], by simp [Event.succeeded],
    ⟨⟨title, r8.physical_device, r8.device, qfi, r10.command_pool, r10.device, r10.device⟩,
      rfl, rfl, by simp [setupCalls]⟩, fun hmax => ?_⟩
  simp only [size_div_left _ hmax, size_div_right _ hmax]
  refine ⟨rfl, rfl, rfl, by simp [fill_length],
    ⟨r10.device,
      { sType := VK_STRUCTURE_TYPE_COMMAND_BUFFER_ALLOCATE_INFO
        commandPool := r10.command_pool
        level := VK_COMMAND_BUFFER_LEVEL_PRIMARY
        commandBufferCount := cfg.MAX_FRAMES_IN_FLIGHT % 2 ^ 32 }, Nat.mod_eq_of_lt hmax,
      by simp, fun k hk => ?_⟩,
    ⟨{ r8 with
        command_pool := some (env.handle (.vkCreateCommandPool r8.device
          { sType := VK_STRUCTURE_TYPE_COMMAND_POOL_CREATE_INFO
            flags := VK_COMMAND_POOL_CREATE_RESET_COMMAND_BUFFER_BIT
            queueFamilyIndex := qfi }) 0) }, r8.device,
      { sType := VK_STRUCTURE_TYPE_COMMAND_POOL_CREATE_INFO
        flags := VK_COMMAND_POOL_CREATE_RESET_COMMAND_BUFFER_BIT
        queueFamilyIndex := qfi }, by simp, rfl, ?_⟩⟩
  · have hm : cfg.MAX_FRAMES_IN_FLIGHT % 4294967296 = cfg.MAX_FRAMES_IN_FLIGHT :=
      Nat.mod_eq_of_lt hmax
    simp [fill_getElem?, hk, hm]
  · rw [h9, h10]


/-! ## The calls of a start-up -/

/-- The calls of a complete start-up are those before the loop and then the
creation calls of the loop. -/
theorem startupCalls_eq (cfg : Config) (a : StepArgs) :
    startupCalls cfg a =
      setupCalls cfg a ++
        (List.range (3 * cfg.MAX_FRAMES_IN_FLIGHT)).map
          (syncCall a.sync_device semaphore_info fence_info) := by
  simp [startupCalls, allSteps, stepCalls, setupCalls, List.flatMap_cons]

theorem range_isPrefix (n m : Nat) (h : n ≤ m) : List.range n <+: List.range m := by
  obtain ⟨k, rfl⟩ := Nat.exists_eq_add_of_le h
  rw [List.range_add]
  exact List.prefix_append _ _

theorem map_call_logged (env : Env) (cs : List Call) : (logged env cs).map Event.call = cs := by
  simp [logged, Function.comp_def]

/-! ## A run of `init` -/

theorem init_of_setup_raised (cfg : Config) (env : Env) (title : String) (w : World) (e : Exn)
    (h : (init_setup cfg env title w).1 = .raised e) :
    init cfg env title w = init_setup cfg env title w := by
  rw [init_eq, bind_apply]
  rcases hs : init_setup cfg env title w with ⟨_ | e1, w1⟩
  · rw [hs] at h
    cases h
  · rfl

theorem init_of_setup_ok (cfg : Config) (env : Env) (title : String) (w : World)
    (h : (init_setup cfg env title w).1 = .ok ()) :
    init cfg env title w =
      init_loop env semaphore_info fence_info cfg.MAX_FRAMES_IN_FLIGHT 0
        (init_setup cfg env title w).2 := by
  rw [init_eq, bind_apply]
  rcases hs : init_setup cfg env title w with ⟨_ | e1, w1⟩
  · rfl
  · rw [hs] at h
    cases h

/-- The two ways a run of `init` can go.  Either a statement before the loop
raises; then no semaphore or fence creation was called.  Or the loop is
entered, after the calls `evs`, in a state `ren1` (with freshly allocated
arrays, when the frame count fits 32 bits); then the first `N` creation calls succeed and are stored, and either
these are all `3 * MAX_FRAMES_IN_FLIGHT` calls and `init` returns, or call
number `N` fails, nothing is called after it, and `init` raises. -/
theorem init_cases (cfg : Config) (env : Env) (title : String) (ren : t_ren)
    (tr : List Event) :
    (∃ e, (init cfg env title ⟨ren, tr⟩).1 = .raised e ∧
      (∀ ev ∈ appended (init cfg env title) ⟨ren, tr⟩, ev.call.isSyncCreate = false) ∧
      (∀ ev ∈ (appended (init cfg env title) ⟨ren, tr⟩).dropLast, ev.succeeded = true) ∧
      (∃ last, (appended (init cfg env title) ⟨ren, tr⟩).getLast? = some last ∧
        raisedBy e last) ∧
      (∃ a : StepArgs, a.title = title ∧
        (appended (init cfg env title) ⟨ren, tr⟩).map Event.call <+: setupCalls cfg a)) ∨
    (∃ evs ren1 N,
      (∀ ev ∈ evs, ev.call.isSyncCreate = false) ∧
      (∀ ev ∈ evs, ev.succeeded = true) ∧
      (∃ a : StepArgs, a.title = title ∧ a.sync_device = ren1.device ∧
        evs.map Event.call = setupCalls cfg a) ∧
      (cfg.MAX_FRAMES_IN_FLIGHT < 2 ^ 32 → initArrays cfg env evs ren1) ∧
      N ≤ 3 * cfg.MAX_FRAMES_IN_FLIGHT ∧
      (∀ p, p < N → env.status (syncCall ren1.device semaphore_info fence_info p) = VK_SUCCESS) ∧
      (init cfg env title ⟨ren, tr⟩).2.ren =
        storeAll env ren1.device semaphore_info fence_info (List.range N) ren1 ∧
      ((N = 3 * cfg.MAX_FRAMES_IN_FLIGHT ∧
          (init cfg env title ⟨ren, tr⟩).1 = .ok () ∧
          appended (init cfg env title) ⟨ren, tr⟩ =
            evs ++ logged env
              ((List.range N).map (syncCall ren1.device semaphore_info fence_info))) ∨
        (N < 3 * cfg.MAX_FRAMES_IN_FLIGHT ∧
          env.status (syncCall ren1.device semaphore_info fence_info N) ≠ VK_SUCCESS ∧
          (init cfg env title ⟨ren, tr⟩).1 = .raised syncError ∧
          appended (init cfg env title) ⟨ren, tr⟩ =
            evs ++ logged env
              ((List.range (N + 1)).map (syncCall ren1.device semaphore_info fence_info))))) := by
  have hspec := init_setup_spec cfg env title ren tr
  rcases hs : init_setup cfg env title ⟨ren, tr⟩ with ⟨_ | e, ⟨ren1, tr1⟩⟩
  · have hinit := init_of_setup_ok cfg env title ⟨ren, tr⟩ (by rw [hs])
    simp only [appended, hs] at hspec
    obtain ⟨htr, hns, hsucc, hsteps, harr⟩ := hspec
    obtain ⟨N, hN, hok, hcase⟩ := init_loop_spec env semaphore_info fence_info
      cfg.MAX_FRAMES_IN_FLIGHT 0 ren1 tr1
    simp only [Nat.mul_zero, Nat.zero_add, ← List.range_eq_range'] at hok hcase
    rw [hs] at hinit
    refine Or.inr ⟨tr1.drop tr.length, ren1, N, hns, hsucc, hsteps, harr, hN,
      fun p hp => hok p (List.mem_range.2 hp), ?_, ?_⟩
    · rcases hcase with ⟨_, heq⟩ | ⟨_, _, heq⟩ <;> rw [hinit, heq]
    · rcases hcase with ⟨hN3, heq⟩ | ⟨hN3, hfail, heq⟩
      · refine Or.inl ⟨hN3, by rw [hinit, heq], ?_⟩
        simp only [appended, hinit, heq]
        rw [htr, List.append_assoc, List.drop_left]
        rw [← htr]
      · refine Or.inr ⟨hN3, hfail, by rw [hinit, heq], ?_⟩
        simp only [appended, hinit, heq]
        rw [htr, List.append_assoc, List.drop_left]
        rw [← htr]
  · have hinit := init_of_setup_raised cfg env title ⟨ren, tr⟩ e (by rw [hs])
    simp only [appended, hs] at hspec
    obtain ⟨_, hns, hdl, hlast, hsteps⟩ := hspec
    refine Or.inl ⟨e, by rw [hinit, hs], ?_⟩
    simp only [appended, hinit, hs]
    exact ⟨hns, hdl, hlast, hsteps⟩


theorem raisedBy_not_succeeded (e : Exn) (last : Event) (h : raisedBy e last) :
    last.succeeded = false := by
  obtain ⟨c, r⟩ := last
  cases r <;> simp_all [raisedBy, Event.succeeded]

theorem failureMessage?_syncCall (dev : Handle) (si : VkSemaphoreCreateInfo)
    (fi : VkFenceCreateInfo) (p : Nat) :
    (syncCall dev si fi p).failureMessage? =
      some "Failed to create synchronization objects for a frame!" := by
  unfold syncCall
  split
  · rfl
  · split <;> rfl

theorem logged_range_succ (env : Env) (f : Nat → Call) (N : Nat) :
    logged env ((List.range (N + 1)).map f) =
      logged env ((List.range N).map f) ++ [⟨f N, .status (env.status (f N))⟩] := by
  simp [logged, List.range_succ]

/-- A run of `init` that raises: every call but the last came back without an
error, and the last call is the one that led to the exception. -/
theorem init_raised_spec (cfg : Config) (env : Env) (title : String) (ren : t_ren)
    (tr : List Event) (e : Exn)
    (h : (init cfg env title ⟨ren, tr⟩).1 = .raised e) :
    (∀ ev ∈ (appended (init cfg env title) ⟨ren, tr⟩).dropLast, ev.succeeded = true) ∧
      (∃ last, (appended (init cfg env title) ⟨ren, tr⟩).getLast? = some last ∧
        raisedBy e last) ∧
      (∃ a : StepArgs, a.title = title ∧
        (appended (init cfg env title) ⟨ren, tr⟩).map Event.call <+: startupCalls cfg a) := by
  rcases init_cases cfg env title ren tr with
    ⟨e1, he1, _, hdl, hlast, hsteps⟩ | ⟨evs, ren1, N, _, hsucc, hsteps, _, _, hok, _, hcase⟩
  · rw [he1] at h
    cases h
    obtain ⟨a, ha, hpre⟩ := hsteps
    refine ⟨hdl, hlast, a, ha, hpre.trans ?_⟩
    rw [startupCalls_eq]
    exact List.prefix_append _ _
  · rcases hcase with ⟨_, hres, _⟩ | ⟨_, hfail, hres, happ⟩
    · rw [hres] at h
      cases h
    · rw [hres] at h
      cases h
      obtain ⟨a, ha, hdev, hcalls⟩ := hsteps
      have hpre : (appended (init cfg env title) ⟨ren, tr⟩).map Event.call <+:
          startupCalls cfg a := by
        rw [happ, startupCalls_eq, List.map_append, map_call_logged, hcalls, hdev]
        exact (List.prefix_append_right_inj _).2
          ((range_isPrefix _ _ (by omega)).map _)
      rw [happ, logged_range_succ, ← List.append_assoc] at hpre ⊢
      refine ⟨?_, ⟨_, List.getLast?_concat _, ?_⟩, a, ha, hpre⟩
      · intro ev hev
        rw [List.dropLast_concat] at hev
        rcases List.mem_append.1 hev with hev | hev
        · exact hsucc ev hev
        · simp only [logged, List.map_map, List.mem_map, List.mem_range] at hev
          obtain ⟨p, hp, rfl⟩ := hev
          simp [Event.succeeded, hok p hp]
      · exact ⟨hfail, _, failureMessage?_syncCall _ _ _ _, rfl⟩

/-- A run of `init` that returns: every call came back without an error, all
calls of the start-up were made, and the arrays hold what the creation calls
gave. -/
theorem init_ok_spec (cfg : Config) (env : Env) (title : String) (ren : t_ren)
    (tr : List Event)
    (h : (init cfg env title ⟨ren, tr⟩).1 = .ok ()) :
    ∃ evs ren1,
      (∀ ev ∈ evs, ev.call.isSyncCreate = false) ∧
      (∀ ev ∈ evs, ev.succeeded = true) ∧
      (∃ a : StepArgs, a.title = title ∧ a.sync_device = ren1.device ∧
        evs.map Event.call = setupCalls cfg a) ∧
      (cfg.MAX_FRAMES_IN_FLIGHT < 2 ^ 32 → initArrays cfg env evs ren1) ∧
      (∀ p, p < 3 * cfg.MAX_FRAMES_IN_FLIGHT →
        env.status (syncCall ren1.device semaphore_info fence_info p) = VK_SUCCESS) ∧
      (init cfg env title ⟨ren, tr⟩).2.ren =
        storeAll env ren1.device semaphore_info fence_info
          (List.range (3 * cfg.MAX_FRAMES_IN_FLIGHT)) ren1 ∧
      appended (init cfg env title) ⟨ren, tr⟩ =
        evs ++ logged env ((List.range (3 * cfg.MAX_FRAMES_IN_FLIGHT)).map
          (syncCall ren1.device semaphore_info fence_info)) := by
  rcases init_cases cfg env title ren tr with
    ⟨e1, he1, _⟩ | ⟨evs, ren1, N, hns, hsucc, hsteps, harr, _, hok, hren, hcase⟩
  · rw [he1] at h
    cases h
  · rcases hcase with ⟨hN, _, happ⟩ | ⟨_, _, hres, _⟩
    · subst hN
      exact ⟨evs, ren1, hns, hsucc, hsteps, harr, hok, hren, happ⟩
    · rw [hres] at h
      cases h

theorem initArrays_length (cfg : Config) (env : Env) (evs : List Event) (r : t_ren)
    (h : initArrays cfg env evs r) (a : t_ren_array) :
    (r.array a).length = cfg.MAX_FRAMES_IN_FLIGHT := by
  obtain ⟨h1, h2, h3, h4, _⟩ := h
  cases a <;> simp [t_ren.array, h1, h2, h3, h4]

theorem initArrays_sync (cfg : Config) (env : Env) (evs : List Event) (r : t_ren)
    (h : initArrays cfg env evs r) (a : t_ren_array) (k p : Nat) (hp : syncPos a k = some p) :
    r.array a = List.replicate cfg.MAX_FRAMES_IN_FLIGHT none := by
  obtain ⟨h1, h2, h3, _⟩ := h
  cases a <;> simp [t_ren.array, h1, h2, h3, syncPos] at hp ⊢

theorem mem_logged (env : Env) (f : Nat → Call) (N p : Nat) (hp : p < N) :
    (⟨f p, .status (env.status (f p))⟩ : Event) ∈ logged env ((List.range N).map f) := by
  simp only [logged, List.map_map, List.mem_map, List.mem_range]
  exact ⟨p, hp, rfl⟩


/-! ## Claims about `init` -/

/-- C3: after a run of `init` that returns, the fence array, the two semaphore
arrays and the command-buffer array each have exactly `MAX_FRAMES_IN_FLIGHT`
elements; element `i` of each synchronization array holds the handle given by
a successful creation call of this run for that element; the command buffers
hold the handles given by one successful `vkAllocateCommandBuffers` of this
run; and every fence creation of the run asked for a signaled fence. -/
theorem init_sync_arrays (cfg : Config) (env : Env) (title : String) (w w1 : World)
    (hmax : cfg.MAX_FRAMES_IN_FLIGHT < 2 ^ 32)
    (h : init cfg env title w = (.ok (), w1)) :
    (w1.ren.in_flight_fences.length = cfg.MAX_FRAMES_IN_FLIGHT ∧
      w1.ren.image_available_semaphores.length = cfg.MAX_FRAMES_IN_FLIGHT ∧
      w1.ren.render_finished_semaphores.length = cfg.MAX_FRAMES_IN_FLIGHT ∧
      w1.ren.command_buffers.length = cfg.MAX_FRAMES_IN_FLIGHT) ∧
    (∀ i, i < cfg.MAX_FRAMES_IN_FLIGHT →
      (∃ c, c = Call.vkCreateSemaphore w1.ren.device
            { sType := VK_STRUCTURE_TYPE_SEMAPHORE_CREATE_INFO, flags := 0 }
            ⟨.image_available_semaphores, i⟩ ∧
          (⟨c, .status VK_SUCCESS⟩ : Event) ∈ appended (init cfg env title) w ∧
          w1.ren.image_available_semaphores[i]? = some (some (env.handle c 0))) ∧
      (∃ c, c = Call.vkCreateSemaphore w1.ren.device
            { sType := VK_STRUCTURE_TYPE_SEMAPHORE_CREATE_INFO, flags := 0 }
            ⟨.render_finished_semaphores, i⟩ ∧
          (⟨c, .status VK_SUCCESS⟩ : Event) ∈ appended (init cfg env title) w ∧
          w1.ren.render_finished_semaphores[i]? = some (some (env.handle c 0))) ∧
      (∃ c, c = Call.vkCreateFence w1.ren.device
            { sType := VK_STRUCTURE_TYPE_FENCE_CREATE_INFO
              flags := VK_FENCE_CREATE_SIGNALED_BIT }
            ⟨.in_flight_fences, i⟩ ∧
          (⟨c, .status VK_SUCCESS⟩ : Event) ∈ appended (init cfg env title) w ∧
          w1.ren.in_flight_fences[i]? = some (some (env.handle c 0)))) ∧
    (∃ dev info, info.commandBufferCount = cfg.MAX_FRAMES_IN_FLIGHT ∧
      (⟨.vkAllocateCommandBuffers dev info, .status VK_SUCCESS⟩ : Event) ∈
        appended (init cfg env title) w ∧
      ∀ i, i < cfg.MAX_FRAMES_IN_FLIGHT →
        w1.ren.command_buffers[i]? =
          some (some (env.handle (.vkAllocateCommandBuffers dev info) i))) ∧
    (∀ ev ∈ appended (init cfg env title) w, ∀ dev info p,
      ev.call = .vkCreateFence dev info p → info.flags = VK_FENCE_CREATE_SIGNALED_BIT) := by
  obtain ⟨ren, tr⟩ := w
  have hres : (init cfg env title ⟨ren, tr⟩).1 = .ok () := by rw [h]
  obtain ⟨evs, ren1, hns, _, _, harr0, hok, hren, happ⟩ :=
    init_ok_spec cfg env title ren tr hres
  have harr := harr0 hmax
  rw [h] at hren
  simp only at hren
  have hdev : w1.ren.device = ren1.device := by rw [hren, storeAll_device]
  have hlen : ∀ a, (w1.ren.array a).length = cfg.MAX_FRAMES_IN_FLIGHT := by
    intro a
    rw [hren, storeAll_length, initArrays_length cfg env evs ren1 harr]
  have hslot : ∀ a k p, syncPos a k = some p → k < cfg.MAX_FRAMES_IN_FLIGHT →
      p < 3 * cfg.MAX_FRAMES_IN_FLIGHT →
      (w1.ren.array a)[k]? =
        some (some (env.handle (syncCall ren1.device semaphore_info fence_info p) 0)) := by
    intro a k p hp hk hp3
    rw [hren, storeAll_getElem?, hp]
    simp [List.mem_range, hp3, initArrays_length cfg env evs ren1 harr, hk]
  have hmem : ∀ p, p < 3 * cfg.MAX_FRAMES_IN_FLIGHT →
      (⟨syncCall ren1.device semaphore_info fence_info p, .status VK_SUCCESS⟩ : Event) ∈
        appended (init cfg env title) ⟨ren, tr⟩ := by
    intro p hp
    rw [happ]
    refine List.mem_append_right _ ?_
    have := mem_logged env (syncCall ren1.device semaphore_info fence_info) _ p hp
    rwa [hok p hp] at this
  refine ⟨⟨hlen .in_flight_fences, hlen .image_available_semaphores,
    hlen .render_finished_semaphores, hlen .command_buffers⟩, ?_, ?_, ?_⟩
  · intro i hi
    rw [hdev]
    refine ⟨⟨_, rfl, ?_, ?_⟩, ⟨_, rfl, ?_, ?_⟩, ⟨_, rfl, ?_, ?_⟩⟩
    · have := hmem (3 * i) (by omega)
      rwa [syncCall_zero] at this
    · have := hslot .image_available_semaphores i (3 * i) rfl hi (by omega)
      rwa [syncCall_zero] at this
    · have := hmem (3 * i + 1) (by omega)
      rwa [syncCall_one] at this
    · have := hslot .render_finished_semaphores i (3 * i + 1) rfl hi (by omega)
      rwa [syncCall_one] at this
    · have := hmem (3 * i + 2) (by omega)
      rwa [syncCall_two] at this
    · have := hslot .in_flight_fences i (3 * i + 2) rfl hi (by omega)
      rwa [syncCall_two] at this
  · obtain ⟨_, _, _, _, ⟨dev, info, hcount, hin, hcb⟩, _⟩ := harr
    refine ⟨dev, info, hcount, ?_, ?_⟩
    · rw [happ]
      exact List.mem_append_left _ hin
    · intro i hi
      have : w1.ren.command_buffers = w1.ren.array .command_buffers := rfl
      rw [this, hren, storeAll_getElem?]
      exact hcb i hi
  · intro ev hev dev info p hcall
    rw [happ] at hev
    rcases List.mem_append.1 hev with hev | hev
    · have := hns ev hev
      rw [hcall] at this
      simp [Call.isSyncCreate] at this
    · simp only [logged, List.map_map, List.mem_map, List.mem_range] at hev
      obtain ⟨q, _, rfl⟩ := hev
      simp only [Function.comp, syncCall] at hcall
      split at hcall
      · cases hcall
      · split at hcall
        · cases hcall
        · cases hcall
          rfl

/-- C3 at a concrete input: two frames in flight, every call succeeds. -/
theorem init_sync_arrays_witness :
    cfgQuad.MAX_FRAMES_IN_FLIGHT < 2 ^ 32 ∧
    (init cfgQuad envOk "demo" ⟨renSmall, []⟩).1 = .ok () ∧
    (init cfgQuad envOk "demo" ⟨renSmall, []⟩).2.ren.in_flight_fences.length = 2 :=
  ⟨by decide, by decide,
    (init_sync_arrays cfgQuad envOk "demo" ⟨renSmall, []⟩
      (init cfgQuad envOk "demo" ⟨renSmall, []⟩).2 (by decide) (by decide)).1.1⟩


/-! ### Three concrete runs -/

theorem run_envBuffers_result :
    (init cfgQuad envBuffers "demo" ⟨renSmall, []⟩).1 = .ok () := by decide

theorem run_envSyncFail_result :
    (init cfgQuad envSyncFail "demo" ⟨renSmall, []⟩).1 = .raised syncError := by decide

theorem run_envSyncFail_last :
    (appended (init cfgQuad envSyncFail "demo") ⟨renSmall, []⟩).getLast? =
      some ⟨.vkCreateSemaphore 1 semaphore_info ⟨.render_finished_semaphores, 1⟩,
        .status (-1)⟩ := by decide

theorem run_envNoGraphics_result :
    (init cfgQuad envNoGraphics "demo" ⟨renSmall, []⟩).1 = .raised .bad_optional_access := by
  decide

theorem run_envNoGraphics_last :
    (appended (init cfgQuad envNoGraphics "demo") ⟨renSmall, []⟩).getLast? =
      some ⟨.find_queue_families 2, .families ⟨none⟩⟩ := by decide

/-- C4, as stated, fails: when the queue-family lookup finds no graphics family
and every API call succeeds, `init` neither returns with its fields populated
nor raises after a checked call that returned a status other than success; it
raises from `value()` before any checked call is made. -/
theorem init_stops_without_failed_call :
    ¬ ∀ (cfg : Config) (env : Env) (title : String) (w : World),
        cfg.MAX_FRAMES_IN_FLIGHT < 2 ^ 32 →
        (∀ r, (env.init_vertex_buffer r).1.command_pool = r.command_pool) →
        (∀ r, (env.init_index_buffer r).1.command_pool = r.command_pool) →
        ((init cfg env title w).1 = .ok () ∧ populated cfg (init cfg env title w).2.ren) ∨
        (∃ e, (init cfg env title w).1 = .raised e ∧
          ∃ ev ∈ appended (init cfg env title) w, ∃ r,
            ev.ret = .status r ∧ r ≠ VK_SUCCESS) := by
  intro h
  have hall : ∀ ev ∈ appended (init cfgQuad envNoGraphics "demo") ⟨renSmall, []⟩,
      (match ev.ret with
        | .status _ => false
        | _ => true) = true := by decide
  rcases h cfgQuad envNoGraphics "demo" ⟨renSmall, []⟩ (by decide) (fun _ => rfl)
      (fun _ => rfl) with ⟨hok, _⟩ | ⟨e, _, ev, hev, r, hr, _⟩
  · exact absurd hok (by decide)
  · have := hall ev hev
    rw [hr] at this
    cases this

/-- C4, amended: a run of `init` goes one of two ways, whatever the environment
answers.  Either it returns, every call came back without an error, and the
command pool, the command buffers, the fences and both semaphore arrays are
populated (the two buffer helpers, which run after the pool is created, are
taken not to overwrite the pool field).  Or it raises at the first call that
fails, which is the last call made, so that no later step or API call is
executed, and every earlier call came back without an error; the failing call
is a helper of a sibling file that threw, or the queue-family lookup that
found no graphics family, so that `value()` threw, or a checked API call that
returned a status other than success, for which `init` threw the
`runtime_error` with the message of that call. -/
theorem init_completes_or_stops (cfg : Config) (env : Env) (title : String) (w : World)
    (hmax : cfg.MAX_FRAMES_IN_FLIGHT < 2 ^ 32)
    (hvb : ∀ r, (env.init_vertex_buffer r).1.command_pool = r.command_pool)
    (hib : ∀ r, (env.init_index_buffer r).1.command_pool = r.command_pool) :
    ((init cfg env title w).1 = .ok () ∧
      (∀ ev ∈ appended (init cfg env title) w, ev.succeeded = true) ∧
      populated cfg (init cfg env title w).2.ren) ∨
    (∃ e last, (init cfg env title w).1 = .raised e ∧
      (appended (init cfg env title) w).getLast? = some last ∧
      (∀ ev ∈ (appended (init cfg env title) w).dropLast, ev.succeeded = true) ∧
      last.succeeded = false ∧
      (last.ret = .threw e ∨
        (last.ret = .families ⟨none⟩ ∧ e = .bad_optional_access) ∨
        (∃ r msg, last.ret = .status r ∧ r ≠ VK_SUCCESS ∧
          last.call.failureMessage? = some msg ∧ e = .runtime_error msg))) := by
  obtain ⟨ren, tr⟩ := w
  rcases hres : (init cfg env title ⟨ren, tr⟩).1 with _ | e
  · left
    obtain ⟨evs, ren1, _, hsucc, _, harr0, hok, hren, happ⟩ :=
      init_ok_spec cfg env title ren tr hres
    have harr := harr0 hmax
    refine ⟨rfl, ?_, ?_, ?_⟩
    · intro ev hev
      rw [happ] at hev
      rcases List.mem_append.1 hev with hev | hev
      · exact hsucc ev hev
      · simp only [logged, List.map_map, List.mem_map, List.mem_range] at hev
        obtain ⟨p, hp, rfl⟩ := hev
        simp [Event.succeeded, hok p hp]
    · rw [hren, storeAll_command_pool]
      obtain ⟨_, _, _, _, _, ⟨rp, dev, info, _, hrp, hpool⟩⟩ := harr
      rw [hpool, hib, hvb, hrp]
      rfl
    · intro a
      refine ⟨by rw [hren, storeAll_length, initArrays_length cfg env evs ren1 harr], ?_⟩
      intro k hk
      rw [hren, storeAll_getElem?]
      cases hp : syncPos a k with
      | none =>
        cases a <;> simp [syncPos] at hp
        obtain ⟨_, _, _, _, ⟨dev, info, _, _, hcb⟩, _⟩ := harr
        exact ⟨_, hcb k hk⟩
      | some p =>
        have hp3 : p < 3 * cfg.MAX_FRAMES_IN_FLIGHT := by
          cases a <;> simp [syncPos] at hp <;> omega
        exact ⟨env.handle (syncCall ren1.device semaphore_info fence_info p) 0,
          by simp [List.mem_range, hp3, initArrays_length cfg env evs ren1 harr, hk]⟩
  · right
    obtain ⟨hdl, ⟨last, hlast, hby⟩, _⟩ := init_raised_spec cfg env title ren tr e hres
    refine ⟨e, last, rfl, hlast, hdl, raisedBy_not_succeeded e last hby, ?_⟩
    obtain ⟨c, ret⟩ := last
    cases ret with
    | void => simp [raisedBy] at hby
    | pointer => simp [raisedBy] at hby
    | threw e1 =>
      simp only [raisedBy] at hby
      exact Or.inl (by rw [hby])
    | families q =>
      obtain ⟨g⟩ := q
      simp only [raisedBy] at hby
      obtain ⟨hg, he⟩ := hby
      subst hg
      exact Or.inr (Or.inl ⟨rfl, he⟩)
    | status r =>
      simp only [raisedBy] at hby
      obtain ⟨hr, msg, hmsg, he⟩ := hby
      exact Or.inr (Or.inr ⟨r, msg, rfl, hr, hmsg, he⟩)

/-- C4 (amended) at three concrete inputs: a run that returns with its fields
populated, a run that stops at a failing semaphore creation, and a run that
stops at the queue-family lookup. -/
theorem init_completes_or_stops_witness :
    (cfgQuad.MAX_FRAMES_IN_FLIGHT < 2 ^ 32 ∧
      (∀ r, (envBuffers.init_vertex_buffer r).1.command_pool = r.command_pool) ∧
      (∀ r, (envBuffers.init_index_buffer r).1.command_pool = r.command_pool)) ∧
    ((init cfgQuad envBuffers "demo" ⟨renSmall, []⟩).1 = .ok () ∧
      populated cfgQuad (init cfgQuad envBuffers "demo" ⟨renSmall, []⟩).2.ren) ∧
    (∃ last, (init cfgQuad envSyncFail "demo" ⟨renSmall, []⟩).1 = .raised syncError ∧
      (appended (init cfgQuad envSyncFail "demo") ⟨renSmall, []⟩).getLast? = some last ∧
      (∀ ev ∈ (appended (init cfgQuad envSyncFail "demo") ⟨renSmall, []⟩).dropLast,
        ev.succeeded = true) ∧
      last.ret = .status (-1)) ∧
    (∃ last, (init cfgQuad envNoGraphics "demo" ⟨renSmall, []⟩).1 =
        .raised .bad_optional_access ∧
      (appended (init cfgQuad envNoGraphics "demo") ⟨renSmall, []⟩).getLast? = some last ∧
      last.ret = .families ⟨none⟩) := by
  refine ⟨⟨by decide, fun _ => rfl, fun _ => rfl⟩, ?_, ?_, ?_⟩
  · rcases init_completes_or_stops cfgQuad envBuffers "demo" ⟨renSmall, []⟩ (by decide)
        (fun _ => rfl) (fun _ => rfl) with ⟨hok, _, hpop⟩ | ⟨e, _, hres, _⟩
    · exact ⟨hok, hpop⟩
    · rw [run_envBuffers_result] at hres
      cases hres
  · rcases init_completes_or_stops cfgQuad envSyncFail "demo" ⟨renSmall, []⟩ (by decide)
        (fun _ => rfl) (fun _ => rfl) with ⟨hok, _⟩ | ⟨e, last, hres, hlast, hdl, _, _⟩
    · rw [run_envSyncFail_result] at hok
      cases hok
    · rw [run_envSyncFail_last] at hlast
      cases hlast
      exact ⟨_, run_envSyncFail_result, run_envSyncFail_last, hdl, rfl⟩
  · rcases init_completes_or_stops cfgQuad envNoGraphics "demo" ⟨renSmall, []⟩ (by decide)
        (fun _ => rfl) (fun _ => rfl) with ⟨hok, _⟩ | ⟨e, last, hres, hlast, _⟩
    · rw [run_envNoGraphics_result] at hok
      cases hok
    · exact ⟨_, run_envNoGraphics_result, run_envNoGraphics_last, rfl⟩

/-- C5: in a run of `init` that returns, the calls made are exactly those of the
thirteen steps instance, surface, device, swap chain, image views, render
pass, graphics pipeline, framebuffers, command pool, vertex buffer, index
buffer, command buffers, synchronization primitives, in this order, the calls
of each step once and together: no call is missing, repeated or out of place,
and the last step makes all `3 * MAX_FRAMES_IN_FLIGHT` creation calls.  In a
run that raises, the calls made are a prefix of the calls of such a complete
run, so the steps executed are a prefix of that order. -/
theorem init_step_order (cfg : Config) (env : Env) (title : String) (w : World) :
    ((init cfg env title w).1 = .ok () →
      ∃ a : StepArgs, a.title = title ∧ a.sync_device = (init cfg env title w).2.ren.device ∧
        (appended (init cfg env title) w).map Event.call =
          [Step.createInstance, .createSurface, .createDevice, .createSwapChain,
           .createImageViews, .createRenderPass, .createGraphicsPipeline,
           .createFramebuffers, .createCommandPool, .createVertexBuffer,
           .createIndexBuffer, .createCommandBuffers, .createSyncPrimitives].flatMap
            (stepCalls cfg a)) ∧
    (∀ e, (init cfg env title w).1 = .raised e →
      ∃ a : StepArgs, a.title = title ∧
        (appended (init cfg env title) w).map Event.call <+:
          [Step.createInstance, .createSurface, .createDevice, .createSwapChain,
           .createImageViews, .createRenderPass, .createGraphicsPipeline,
           .createFramebuffers, .createCommandPool, .createVertexBuffer,
           .createIndexBuffer, .createCommandBuffers, .createSyncPrimitives].flatMap
            (stepCalls cfg a)) := by
  obtain ⟨ren, tr⟩ := w
  constructor
  · intro hres
    obtain ⟨evs, ren1, _, _, ⟨a, ha, hdev, hcalls⟩, _, _, hren, happ⟩ :=
      init_ok_spec cfg env title ren tr hres
    refine ⟨a, ha, by rw [hren, storeAll_device, hdev], ?_⟩
    have h := startupCalls_eq cfg a
    unfold startupCalls allSteps at h
    rw [h, happ, List.map_append, map_call_logged, hcalls, hdev]
  · intro e hres
    exact (init_raised_spec cfg env title ren tr e hres).2.2

/-- C5 at two concrete inputs: a run that returns, whose calls are the 23 calls
of the thirteen steps, and a run that raises in the loop after 22 of them. -/
theorem init_step_order_witness :
    ((init cfgQuad envOk "demo" ⟨renSmall, []⟩).1 = .ok () ∧
      (appended (init cfgQuad envOk "demo") ⟨renSmall, []⟩).length = 23 ∧
      ∃ a : StepArgs, a.title = "demo" ∧
        a.sync_device = (init cfgQuad envOk "demo" ⟨renSmall, []⟩).2.ren.device ∧
        (appended (init cfgQuad envOk "demo") ⟨renSmall, []⟩).map Event.call =
          [Step.createInstance, .createSurface, .createDevice, .createSwapChain,
           .createImageViews, .createRenderPass, .createGraphicsPipeline,
           .createFramebuffers, .createCommandPool, .createVertexBuffer,
           .createIndexBuffer, .createCommandBuffers, .createSyncPrimitives].flatMap
            (stepCalls cfgQuad a)) ∧
    ((init cfgQuad envSyncFail "demo" ⟨renSmall, []⟩).1 = .raised syncError ∧
      (appended (init cfgQuad envSyncFail "demo") ⟨renSmall, []⟩).length = 22 ∧
      ∃ a : StepArgs, a.title = "demo" ∧
        (appended (init cfgQuad envSyncFail "demo") ⟨renSmall, []⟩).map Event.call <+:
          [Step.createInstance, .createSurface, .createDevice, .createSwapChain,
           .createImageViews, .createRenderPass, .createGraphicsPipeline,
           .createFramebuffers, .createCommandPool, .createVertexBuffer,
           .createIndexBuffer, .createCommandBuffers, .createSyncPrimitives].flatMap
            (stepCalls cfgQuad a)) :=
  ⟨⟨by decide, by decide,
      (init_step_order cfgQuad envOk "demo" ⟨renSmall, []⟩).1 (by decide)⟩,
    ⟨by decide, by decide,
      (init_step_order cfgQuad envSyncFail "demo" ⟨renSmall, []⟩).2 syncError (by decide)⟩⟩

/-- C7, as stated, fails: when the queue-family lookup finds no graphics
family, `init` raises `std::bad_optional_access` from `value()`, although no
API call has returned a status other than success, and the exception carries
none of the three messages. -/
theorem init_raises_bad_optional_access :
    ¬ ∀ (cfg : Config) (env : Env) (title : String) (w : World) (e : Exn),
        (init cfg env title w).1 = .raised e →
        (∃ ev ∈ appended (init cfg env title) w, ∃ r, ev.ret = .status r ∧ r ≠ VK_SUCCESS) ∧
        (e = .runtime_error "Failed to create command pool!" ∨
          e = .runtime_error "Failed to create command buffers!" ∨
          e = .runtime_error "Failed to create synchronization objects for a frame!") := by
  intro h
  have h1 := (h cfgQuad envNoGraphics "demo" ⟨renSmall, []⟩ .bad_optional_access
    (by decide)).2
  revert h1
  decide

/-- C7, amended: when `init` raises, the exception comes from the last call it
made, in one of three ways: a helper of a sibling file threw it; or the
queue-family lookup returned no graphics family and `value()` threw
`std::bad_optional_access`; or a checked API call returned a status other than
success and the exception is the `runtime_error` with one of the messages
"Failed to create command pool!", "Failed to create command buffers!" and
"Failed to create synchronization objects for a frame!". -/
theorem init_error_kinds (cfg : Config) (env : Env) (title : String) (w : World) (e : Exn)
    (h : (init cfg env title w).1 = .raised e) :
    ∃ last, (appended (init cfg env title) w).getLast? = some last ∧
      (last.ret = .threw e ∨
        (last.ret = .families ⟨none⟩ ∧ e = .bad_optional_access) ∨
        (∃ r, last.ret = .status r ∧ r ≠ VK_SUCCESS ∧
          (e = .runtime_error "Failed to create command pool!" ∨
            e = .runtime_error "Failed to create command buffers!" ∨
            e = .runtime_error "Failed to create synchronization objects for a frame!"))) := by
  obtain ⟨ren, tr⟩ := w
  obtain ⟨_, ⟨last, hlast, hby⟩, _⟩ := init_raised_spec cfg env title ren tr e h
  refine ⟨last, hlast, ?_⟩
  obtain ⟨c, ret⟩ := last
  cases ret with
  | void => simp [raisedBy] at hby
  | pointer => simp [raisedBy] at hby
  | threw e1 =>
    left
    simp only [raisedBy] at hby
    rw [hby]
  | families q =>
    right; left
    obtain ⟨g⟩ := q
    simp only [raisedBy] at hby
    obtain ⟨hg, he⟩ := hby
    subst hg
    exact ⟨rfl, he⟩
  | status r =>
    right; right
    simp only [raisedBy] at hby
    obtain ⟨hr, msg, hmsg, he⟩ := hby
    refine ⟨r, rfl, hr, ?_⟩
    subst he
    cases c <;> simp [Call.failureMessage?] at hmsg <;> simp [← hmsg]

/-- C7 (amended) at a concrete input: the lookup finds no graphics family. -/
theorem init_error_kinds_witness :
    (init cfgQuad envNoGraphics "demo" ⟨renSmall, []⟩).1 = .raised .bad_optional_access ∧
    ∃ last, (appended (init cfgQuad envNoGraphics "demo") ⟨renSmall, []⟩).getLast? =
        some last ∧
      (last.ret = .threw .bad_optional_access ∨
        (last.ret = .families ⟨none⟩ ∧ Exn.bad_optional_access = .bad_optional_access) ∨
        (∃ r, last.ret = .status r ∧ r ≠ VK_SUCCESS ∧
          (Exn.bad_optional_access = .runtime_error "Failed to create command pool!" ∨
            Exn.bad_optional_access = .runtime_error "Failed to create command buffers!" ∨
            Exn.bad_optional_access =
              .runtime_error "Failed to create synchronization objects for a frame!"))) :=
  ⟨by decide,
    init_error_kinds cfgQuad envNoGraphics "demo" ⟨renSmall, []⟩ .bad_optional_access
      (by decide)⟩


/-- C10: a failure leaves a prefix of the work done.  If `vkBeginCommandBuffer`
fails, the recorder issues no command on the buffer: the failing begin is its
only call.  If `init` stops on a failing semaphore or fence creation, say the
call number `j` (counted from 0, in the order image-available semaphore,
render-finished semaphore, fence) of frame `i`, then `init` raises the
synchronization error; the creation calls made are exactly those of frames
`0 .. i-1`, the first `j` calls of frame `i`, which all succeeded, and the
failing call, after which nothing is called; and each element of the three
arrays holds the handle its creation call gave if that call is among the
successful ones, and is still uninitialised otherwise, so no created object
has been destroyed. -/
theorem failure_short_circuits :
    (∀ (cfg : Config) (env : Env) (cb idx : Nat) (w : World),
      env.status (beginCall cb) ≠ VK_SUCCESS →
      appended (record_command_buffer cfg env cb idx) w =
          [⟨beginCall cb, .status (env.status (beginCall cb))⟩] ∧
        commands (appended (record_command_buffer cfg env cb idx) w) = []) ∧
    (∀ (cfg : Config) (env : Env) (title : String) (w w1 : World) (res : Result Unit)
      (last : Event),
      cfg.MAX_FRAMES_IN_FLIGHT < 2 ^ 32 →
      init cfg env title w = (res, w1) →
      (appended (init cfg env title) w).getLast? = some last →
      last.call.isSyncCreate = true →
      last.succeeded = false →
      ∃ i j evs, i < cfg.MAX_FRAMES_IN_FLIGHT ∧ j < 3 ∧
        res = .raised syncError ∧
        (∀ ev ∈ evs, ev.call.isSyncCreate = false) ∧
        appended (init cfg env title) w =
          evs ++ logged env ((List.range (3 * i + j + 1)).map
            (syncCall w1.ren.device semaphore_info fence_info)) ∧
        (∀ p, p < 3 * i + j →
          env.status (syncCall w1.ren.device semaphore_info fence_info p) = VK_SUCCESS) ∧
        env.status (syncCall w1.ren.device semaphore_info fence_info (3 * i + j)) ≠
          VK_SUCCESS ∧
        (∀ a k p, syncPos a k = some p → k < cfg.MAX_FRAMES_IN_FLIGHT →
          (w1.ren.array a)[k]? =
            some (if p < 3 * i + j then
              some (env.handle (syncCall w1.ren.device semaphore_info fence_info p) 0)
            else none)) ∧
        (∀ a, (w1.ren.array a).length = cfg.MAX_FRAMES_IN_FLIGHT)) := by
  constructor
  · intro cfg env cb idx w hb
    have ha := appended_record_command_buffer cfg env cb idx w
    simp only [hb, ne_eq, not_false_eq_true, if_true] at ha
    rw [ha]
    exact ⟨rfl, by simp [commands, Call.command?, beginCall]⟩
  · intro cfg env title w w1 res last hmax hrun hlast hsync hfail
    obtain ⟨ren, tr⟩ := w
    have hmemlast : last ∈ appended (init cfg env title) ⟨ren, tr⟩ :=
      List.mem_of_getLast?_eq_some hlast
    rcases init_cases cfg env title ren tr with
      ⟨e1, _, hns, _⟩ | ⟨evs, ren1, N, hns, hsucc, _, harr0, _, hok, hren, hcase⟩
    · rw [hns last hmemlast] at hsync
      cases hsync
    · have harr := harr0 hmax
      rw [hrun] at hren hcase
      simp only at hren hcase
      have hdev : w1.ren.device = ren1.device := by rw [hren, storeAll_device]
      rcases hcase with ⟨_, _, happ⟩ | ⟨hN, hNfail, hres, happ⟩
      · exfalso
        rw [happ] at hmemlast
        have : last.succeeded = true := by
          rcases List.mem_append.1 hmemlast with hev | hev
          · exact hsucc last hev
          · simp only [logged, List.map_map, List.mem_map, List.mem_range] at hev
            obtain ⟨p, hp, rfl⟩ := hev
            simp [Event.succeeded, hok p hp]
        rw [this] at hfail
        cases hfail
      · have hdm : 3 * (N / 3) + N % 3 = N := Nat.div_add_mod N 3
        refine ⟨N / 3, N % 3, evs, by omega, Nat.mod_lt _ (by decide), hres, hns, ?_, ?_, ?_,
          ?_, ?_⟩
        · rw [hdm, hdev, happ]
        · rw [hdm, hdev]
          exact hok
        · rw [hdm, hdev]
          exact hNfail
        · intro a k p hp hk
          rw [hdm, hdev, hren, storeAll_getElem?, hp,
            initArrays_sync cfg env evs ren1 harr a k p hp]
          by_cases hpN : p < N <;> simp [List.mem_range, hpN, hk]
        · intro a
          rw [hren, storeAll_length, initArrays_length cfg env evs ren1 harr]

/-- C10 at concrete inputs: a failing begin, and a failing second creation call of frame 1. -/
theorem failure_short_circuits_witness :
    envBeginFail.status (beginCall 7) ≠ VK_SUCCESS ∧
    commands (appended (record_command_buffer cfgQuad envBeginFail 7 1) ⟨renSmall, []⟩) = [] ∧
    (init cfgQuad envSyncFail "demo" ⟨renSmall, []⟩).1 = .raised syncError ∧
    ∃ i j evs, i < cfgQuad.MAX_FRAMES_IN_FLIGHT ∧ j < 3 ∧
      (Result.raised syncError : Result Unit) = .raised syncError ∧
      (∀ ev ∈ evs, ev.call.isSyncCreate = false) ∧
      appended (init cfgQuad envSyncFail "demo") ⟨renSmall, []⟩ =
        evs ++ logged envSyncFail ((List.range (3 * i + j + 1)).map
          (syncCall (init cfgQuad envSyncFail "demo" ⟨renSmall, []⟩).2.ren.device
            semaphore_info fence_info)) ∧
      (∀ p, p < 3 * i + j →
        envSyncFail.status
          (syncCall (init cfgQuad envSyncFail "demo" ⟨renSmall, []⟩).2.ren.device
            semaphore_info fence_info p) = VK_SUCCESS) ∧
      envSyncFail.status
          (syncCall (init cfgQuad envSyncFail "demo" ⟨renSmall, []⟩).2.ren.device
            semaphore_info fence_info (3 * i + j)) ≠ VK_SUCCESS ∧
      (∀ a k p, syncPos a k = some p → k < cfgQuad.MAX_FRAMES_IN_FLIGHT →
        ((init cfgQuad envSyncFail "demo" ⟨renSmall, []⟩).2.ren.array a)[k]? =
          some (if p < 3 * i + j then
            some (envSyncFail.handle
              (syncCall (init cfgQuad envSyncFail "demo" ⟨renSmall, []⟩).2.ren.device
                semaphore_info fence_info p) 0)
          else none)) ∧
      (∀ a, ((init cfgQuad envSyncFail "demo" ⟨renSmall, []⟩).2.ren.array a).length =
        cfgQuad.MAX_FRAMES_IN_FLIGHT) :=
  ⟨by decide,
    (failure_short_circuits.1 cfgQuad envBeginFail 7 1 ⟨renSmall, []⟩ (by decide)).2,
    by decide,
    failure_short_circuits.2 cfgQuad envSyncFail "demo" ⟨renSmall, []⟩
      (init cfgQuad envSyncFail "demo" ⟨renSmall, []⟩).2 (.raised syncError)
      ⟨.vkCreateSemaphore 1 semaphore_info ⟨.render_finished_semaphores, 1⟩, .status (-1)⟩
      (by decide) (by decide) (by decide) (by decide) (by decide)⟩

end vk
